import Mathlib

/-!
# NewMPU6886: a shallow embedding of the MPU6886 driver

Source: `imu_base/NewMPU6886.h` and `imu_base/NewMPU6886.cpp`.

Modelling choices.

* The C++ enumerations `Ascale`, `Gscale`, `Gfilter`, `Afilter` are unscoped
  enums without a fixed underlying type; an argument is modelled by its
  underlying unsigned 32-bit integer (`Nat`), so that values outside the
  enumerators can be passed, as a C++ caller can with a cast. The range guards
  `scale > GFS_2000DPS` and `scale > AFS_16G` compare after promotion to
  `int`, that is as signed 32-bit integers (`enumGt`); the filter tests
  `filter >= ... || filter <= ...` hold for every value under either reading.
* `uint8_t` stores are `% 256`; `int16_t` and `int32_t` stores wrap
  (`toInt16`, `toInt32`), which is what the target compiler does.
* `float` values are rationals. The cached members hold binary32 values: the
  range resolutions are exact in binary32, and the radian resolution, a
  `double` expression stored into a `float`, is rounded operation by
  operation (`toDouble`, `toFloat`). The values the scaled reads hand back are
  the exact results of the source expressions.
* The two-wire bus is modelled by an oracle `device k a` (the byte the device
  returns for register `a` during the `k`-th read transaction), by the map
  `written` of the bytes last written to each register, and by the event
  trace. Every read transaction is assumed to deliver all requested bytes.
* The mutex, the delays and every access to the cached configuration are
  recorded in the event trace, in program order.
-/

namespace NewMPU6886

/-! ## Register map (the `#define` block of NewMPU6886.cpp) -/

abbrev MPU6886_ADDRESS : Nat := 0x68
abbrev MPU6886_WHOAMI : Nat := 0x75
abbrev MPU6886_SMPLRT_DIV : Nat := 0x19
abbrev MPU6886_INT_PIN_CFG : Nat := 0x37
abbrev MPU6886_INT_ENABLE : Nat := 0x38
abbrev MPU6886_ACCEL_XOUT_H : Nat := 0x3B
abbrev MPU6886_TEMP_OUT_H : Nat := 0x41
abbrev MPU6886_GYRO_XOUT_H : Nat := 0x43
abbrev MPU6886_USER_CTRL : Nat := 0x6A
abbrev MPU6886_PWR_MGMT_1 : Nat := 0x6B
abbrev MPU6886_CONFIG : Nat := 0x1A
abbrev MPU6886_GYRO_CONFIG : Nat := 0x1B
abbrev MPU6886_ACCEL_CONFIG : Nat := 0x1C
abbrev MPU6886_ACCEL_CONFIG2 : Nat := 0x1D
abbrev MPU6886_FIFO_EN : Nat := 0x23
abbrev MPU6886_XG_OFFS_USRH : Nat := 0x13
abbrev MPU6886_YG_OFFS_USRH : Nat := 0x15
abbrev MPU6886_ZG_OFFS_USRH : Nat := 0x17
abbrev MPU6886_FIFO_COUNTH : Nat := 0x72
abbrev MPU6886_FIFO_R_W : Nat := 0x74
abbrev MPU6886_CAL_AVG_TIMES : Nat := 32

/-! ## Enumerators (NewMPU6886.h), as underlying integers -/

abbrev AFS_2G : Nat := 0
abbrev AFS_4G : Nat := 1
abbrev AFS_8G : Nat := 2
abbrev AFS_16G : Nat := 3

abbrev GFS_250DPS : Nat := 0
abbrev GFS_500DPS : Nat := 1
abbrev GFS_1000DPS : Nat := 2
abbrev GFS_2000DPS : Nat := 3

abbrev GFIL_250 : Nat := 0
abbrev GFIL_176 : Nat := 1
abbrev GFIL_92 : Nat := 2
abbrev GFIL_41 : Nat := 3
abbrev GFIL_20 : Nat := 4
abbrev GFIL_10 : Nat := 5
abbrev GFIL_5 : Nat := 6
abbrev GFIL_3281 : Nat := 7
abbrev GNFIL_3281 : Nat := 8
abbrev GNFIL_8173 : Nat := 9

abbrev AFIL_218 : Nat := 0
abbrev AFIL_99 : Nat := 2
abbrev AFIL_44 : Nat := 3
abbrev AFIL_21 : Nat := 4
abbrev AFIL_10 : Nat := 5
abbrev AFIL_5 : Nat := 6
abbrev AFIL_420 : Nat := 7
abbrev ANFIL_1046 : Nat := 8

/-! ## Machine integers -/

/-- Store of an integer into an `int16_t` (wraps modulo 2^16). -/
def toInt16 (n : Int) : Int := (n + 32768) % 65536 - 32768

/-- Store of an integer into an `int32_t` (wraps modulo 2^32). -/
def toInt32 (n : Int) : Int := (n + 2147483648) % 4294967296 - 2147483648

/-- Store of an unsigned value into a `uint8_t`. -/
def toUInt8 (n : Nat) : Nat := n % 256

/-- The expression `(uint8_t)(v & 0x00ff)` for a signed `v`. -/
def lowByte (v : Int) : Nat := (v % 256).toNat

/-- The expression `(uint8_t)((v >> 8) & 0x00ff)` for a signed `v`
(arithmetic right shift). -/
def highByte (v : Int) : Nat := ((v / 256) % 256).toNat

/-- The comparison `e > k` of an enum value with an enumerator, made after
promotion to `int`: `e` is the underlying 32-bit value, which promotes to
itself below 2^31 and to a negative `int` from 2^31 on, and `k` is below 2^31.
It is the signed comparison `toInt32 e > k` (`enumGt_iff`). -/
def enumGt (e k : Nat) : Prop := k < e % 4294967296 ∧ e % 4294967296 < 2147483648

instance enumGt.decidable (e k : Nat) : Decidable (enumGt e k) := by
  unfold enumGt
  exact inferInstance

/-! ## Floating point -/

/-- Rounding of a rational to the nearest integer, ties to the even one. -/
def roundHalfEven (q : ℚ) : ℤ :=
  if q - ⌊q⌋ < 1 / 2 then ⌊q⌋
  else if 1 / 2 < q - ⌊q⌋ then ⌊q⌋ + 1
  else if ⌊q⌋ % 2 = 0 then ⌊q⌋ else ⌊q⌋ + 1

/-- Rounding into a binary floating-point format with `prec` significant
bits, to nearest, ties to even (the exponent range is not modelled). -/
def roundBinary (prec : Nat) (x : ℚ) : ℚ :=
  if x = 0 then 0
  else
    (roundHalfEven (x / 2 ^ (Int.log 2 |x| - ((prec : ℤ) - 1))) : ℚ)
      * 2 ^ (Int.log 2 |x| - ((prec : ℤ) - 1))

/-- Rounding to `double` (binary64). -/
def toDouble (x : ℚ) : ℚ := roundBinary 53 x

/-- Rounding to `float` (binary32). -/
def toFloat (x : ℚ) : ℚ := roundBinary 24 x

/-! ## State -/

/-- The cached configuration members of the class. -/
inductive Field where
  | ascale | gscale | gfilter | afilter | divider | aRes | gRes | gRadRes
  deriving DecidableEq, Repr

/-- Observable events, in program order. -/
inductive Event where
  | take
  | give
  | delay (ms : Nat)
  | busBegin (sda scl hz : Nat)
  | busRead (dev reg n : Nat)
  | busWrite (dev reg : Nat) (bytes : List Nat)
  | cfgRd (f : Field)
  | cfgWr (f : Field)
  deriving DecidableEq, Repr

/-- The private members of `class NewMPU6886` together with the bus. -/
structure Driver where
  p_wire : Nat
  now_ascale : Nat
  now_gscale : Nat
  now_gfilter : Nat
  now_afilter : Nat
  now_sample_divider : Nat
  aRes : ℚ
  gRes : ℚ
  gRadRes : ℚ
  device : Nat → Nat → Nat
  nreads : Nat
  written : Nat → Option Nat
  trace : List Event

/-- The cached configuration of a driver, as a tuple. -/
def Driver.cache (s : Driver) : Nat × Nat × Nat × Nat × Nat × ℚ × ℚ × ℚ :=
  (s.now_ascale, s.now_gscale, s.now_gfilter, s.now_afilter,
    s.now_sample_divider, s.aRes, s.gRes, s.gRadRes)

def emit (s : Driver) (e : Event) : Driver :=
  { s with trace := s.trace ++ [e] }

def xSemaphoreTake (s : Driver) : Driver := emit s Event.take

def xSemaphoreGive (s : Driver) : Driver := emit s Event.give

def delay (s : Driver) (ms : Nat) : Driver := emit s (Event.delay ms)

/-- The register transactions of a trace, in order. -/
def busWrites : List Event → List (Nat × List Nat)
  | [] => []
  | Event.busWrite _ reg bytes :: es => (reg, bytes) :: busWrites es
  | _ :: es => busWrites es

/-- Bytes stored from `start` on, one register per byte. -/
def storeBytes (w : Nat → Option Nat) (start : Nat) (bytes : List Nat) :
    Nat → Option Nat :=
  fun a => if start ≤ a ∧ a < start + bytes.length then bytes[a - start]? else w a

def I2C_Read_NBytes (s : Driver) (driver_Addr start_Addr number_Bytes : Nat) :
    Driver × List Nat :=
  ({ s with
      nreads := s.nreads + 1
      trace := s.trace ++ [Event.busRead driver_Addr start_Addr number_Bytes] },
   (List.range number_Bytes).map fun i => s.device s.nreads (start_Addr + i) % 256)

def I2C_Write_NBytes (s : Driver) (driver_Addr start_Addr number_Bytes : Nat)
    (write_Buffer : List Nat) : Driver :=
  { s with
      written := storeBytes s.written start_Addr (write_Buffer.take number_Bytes)
      trace := s.trace ++
        [Event.busWrite driver_Addr start_Addr (write_Buffer.take number_Bytes)] }

/-! ## Resolutions -/

/-- The `double` expression `dps/32768.0/180.*3.14159265` as stored into the
`float` member `gRadRes`: the first quotient is exact, the division by 180,
the literal and the product are each rounded to `double`, and the store
rounds to binary32. -/
def gradOf (dps : ℚ) : ℚ :=
  toFloat (toDouble (toDouble (dps / 32768.0 / 180) * toDouble 3.14159265))

/-- The value pair the `switch` of `getGres` selects (`gRes`, exact in
binary32, and `gRadRes`). -/
def gresOf (scale : Nat) : ℚ × ℚ :=
  if scale = GFS_250DPS then (250.0 / 32768.0, gradOf 250.0)
  else if scale = GFS_500DPS then (500.0 / 32768.0, gradOf 500.0)
  else if scale = GFS_1000DPS then (1000.0 / 32768.0, gradOf 1000.0)
  else if scale = GFS_2000DPS then (2000.0 / 32768.0, gradOf 2000.0)
  else (0, 0)

def getGres (s : Driver) : Driver :=
  let s := emit s (Event.cfgRd Field.gscale)
  let r := gresOf s.now_gscale
  let s := emit { s with gRes := r.1 } (Event.cfgWr Field.gRes)
  emit { s with gRadRes := r.2 } (Event.cfgWr Field.gRadRes)

/-- The value the `switch` of `getAres` selects. -/
def aresOf (scale : Nat) : ℚ :=
  if scale = AFS_2G then 2.0 / 32768.0
  else if scale = AFS_4G then 4.0 / 32768.0
  else if scale = AFS_8G then 8.0 / 32768.0
  else if scale = AFS_16G then 16.0 / 32768.0
  else 0

def getAres (s : Driver) : Driver :=
  let s := emit s (Event.cfgRd Field.ascale)
  emit { s with aRes := aresOf s.now_ascale } (Event.cfgWr Field.aRes)

/-! ## Range setters -/

def setGyroFsr (s : Driver) (scale : Nat) : Driver :=
  if enumGt scale GFS_2000DPS then s
  else
    let s := xSemaphoreTake s
    let regdata := toUInt8 (scale <<< 3)
    let s := emit s (Event.cfgRd Field.gfilter)
    let (s, regdata) :=
      if s.now_gfilter = GNFIL_3281 then (s, regdata ||| 0x02)
      else
        let s := emit s (Event.cfgRd Field.gfilter)
        if s.now_gfilter = GNFIL_8173 then (s, regdata ||| 0x01) else (s, regdata)
    let s := I2C_Write_NBytes s MPU6886_ADDRESS MPU6886_GYRO_CONFIG 1 [regdata]
    let s := emit { s with now_gscale := scale } (Event.cfgWr Field.gscale)
    let s := getGres s
    let s := xSemaphoreGive s
    delay s 10

def setAccelFsr (s : Driver) (scale : Nat) : Driver :=
  if enumGt scale AFS_16G then s
  else
    let s := xSemaphoreTake s
    let regdata := toUInt8 (scale <<< 3)
    let s := I2C_Write_NBytes s MPU6886_ADDRESS MPU6886_ACCEL_CONFIG 1 [regdata]
    let s := emit { s with now_ascale := scale } (Event.cfgWr Field.ascale)
    let s := getAres s
    let s := xSemaphoreGive s
    delay s 10

/-! ## Filter and divider setters -/

def setGyroFilter (s : Driver) (filter : Nat) : Driver :=
  let s := xSemaphoreTake s
  let s :=
    if filter ≥ GFIL_250 ∨ filter ≤ GFIL_3281 then
      let regdata := toUInt8 (filter ||| 0x40)
      let s := I2C_Write_NBytes s MPU6886_ADDRESS MPU6886_CONFIG 1 [regdata]
      let s := emit s (Event.cfgRd Field.gscale)
      let regdata := toUInt8 (s.now_gscale <<< 3)
      let s := I2C_Write_NBytes s MPU6886_ADDRESS MPU6886_GYRO_CONFIG 1 [regdata]
      emit { s with now_gfilter := filter } (Event.cfgWr Field.gfilter)
    else if filter = GNFIL_3281 then
      let s := emit s (Event.cfgRd Field.gscale)
      let regdata := toUInt8 ((s.now_gscale <<< 3) ||| 0x02)
      let s := I2C_Write_NBytes s MPU6886_ADDRESS MPU6886_GYRO_CONFIG 1 [regdata]
      emit { s with now_gfilter := filter } (Event.cfgWr Field.gfilter)
    else if filter = GNFIL_8173 then
      let s := emit s (Event.cfgRd Field.gscale)
      let regdata := toUInt8 ((s.now_gscale <<< 3) ||| 0x01)
      let s := I2C_Write_NBytes s MPU6886_ADDRESS MPU6886_GYRO_CONFIG 1 [regdata]
      emit { s with now_gfilter := filter } (Event.cfgWr Field.gfilter)
    else s
  let s := xSemaphoreGive s
  delay s 1

def setAccelFilter (s : Driver) (filter : Nat) : Driver :=
  let s := xSemaphoreTake s
  let s :=
    if filter ≥ AFIL_218 ∨ filter ≤ AFIL_420 then
      let regdata := toUInt8 filter
      let s := I2C_Write_NBytes s MPU6886_ADDRESS MPU6886_ACCEL_CONFIG2 1 [regdata]
      emit { s with now_afilter := filter } (Event.cfgWr Field.afilter)
    else if filter = ANFIL_1046 then
      let regdata := 0x08
      let s := I2C_Write_NBytes s MPU6886_ADDRESS MPU6886_ACCEL_CONFIG2 1 [regdata]
      emit { s with now_afilter := filter } (Event.cfgWr Field.afilter)
    else s
  let s := xSemaphoreGive s
  delay s 1

def setSampleDivider (s : Driver) (divide : Nat) : Driver :=
  let regdata := toUInt8 divide
  let s := xSemaphoreTake s
  let s := I2C_Write_NBytes s MPU6886_ADDRESS MPU6886_SMPLRT_DIV 1 [regdata]
  let s := emit { s with now_sample_divider := toUInt8 divide } (Event.cfgWr Field.divider)
  let s := xSemaphoreGive s
  delay s 1

/-! ## Initialisation -/

def init (s : Driver) (sda scl wire : Nat) : Driver × Bool :=
  let s := xSemaphoreTake s
  let s := { s with p_wire := if wire = 0 then 0 else if wire = 1 then 1 else 0 }
  let s := emit s (Event.busBegin sda scl 400000)
  let (s, tempdata) := I2C_Read_NBytes s MPU6886_ADDRESS MPU6886_WHOAMI 1
  if tempdata.getD 0 0 ≠ 0x19 then
    (xSemaphoreGive s, false)
  else
    let s := delay s 1
    let s := I2C_Write_NBytes s MPU6886_ADDRESS MPU6886_PWR_MGMT_1 1 [0x00]
    let s := delay s 10
    let s := I2C_Write_NBytes s MPU6886_ADDRESS MPU6886_PWR_MGMT_1 1 [0x01 <<< 7]
    let s := delay s 10
    let s := I2C_Write_NBytes s MPU6886_ADDRESS MPU6886_PWR_MGMT_1 1 [0x01 <<< 0]
    let s := delay s 10
    let s := I2C_Write_NBytes s MPU6886_ADDRESS MPU6886_ACCEL_CONFIG 1 [0x00]
    let s := emit { s with now_ascale := AFS_2G } (Event.cfgWr Field.ascale)
    let s := delay s 1
    let s := I2C_Write_NBytes s MPU6886_ADDRESS MPU6886_GYRO_CONFIG 1 [0x08]
    let s := emit { s with now_gscale := GFS_500DPS } (Event.cfgWr Field.gscale)
    let s := delay s 1
    let s := I2C_Write_NBytes s MPU6886_ADDRESS MPU6886_CONFIG 1 [0x41]
    let s := emit { s with now_gfilter := GFIL_176 } (Event.cfgWr Field.gfilter)
    let s := delay s 1
    let s := I2C_Write_NBytes s MPU6886_ADDRESS MPU6886_SMPLRT_DIV 1 [0x00]
    let s := emit { s with now_sample_divider := 0 } (Event.cfgWr Field.divider)
    let s := delay s 1
    let s := I2C_Write_NBytes s MPU6886_ADDRESS MPU6886_INT_ENABLE 1 [0x00]
    let s := delay s 1
    let s := I2C_Write_NBytes s MPU6886_ADDRESS MPU6886_ACCEL_CONFIG2 1 [0x00]
    let s := emit { s with now_afilter := AFIL_218 } (Event.cfgWr Field.afilter)
    let s := delay s 1
    let s := I2C_Write_NBytes s MPU6886_ADDRESS MPU6886_USER_CTRL 1 [0x00]
    let s := delay s 1
    let s := I2C_Write_NBytes s MPU6886_ADDRESS MPU6886_FIFO_EN 1 [0x00]
    let s := delay s 1
    let s := I2C_Write_NBytes s MPU6886_ADDRESS MPU6886_INT_PIN_CFG 1 [0x00]
    let s := delay s 1
    let s := I2C_Write_NBytes s MPU6886_ADDRESS MPU6886_INT_ENABLE 1 [0x00]
    let s := xSemaphoreGive s
    let s := delay s 100
    let s := getGres s
    let s := getAres s
    (s, true)

/-! ## Raw reads -/

/-- The expression `((int16_t)hi << 8) | lo` stored into an `int16_t`. -/
def decodeI16 (hi lo : Nat) : Int :=
  toInt16 (((((toInt16 hi).toNat <<< 8) ||| lo : Nat) : Int))

/-- The expression `((uint16_t)hi << 8) | lo` stored into an `int16_t`. -/
def decodeU16 (hi lo : Nat) : Int :=
  toInt16 (((((hi % 65536) <<< 8) ||| lo : Nat) : Int))

def getAccelAdc (s : Driver) : Driver × Int × Int × Int :=
  let s := xSemaphoreTake s
  let (s, buf) := I2C_Read_NBytes s MPU6886_ADDRESS MPU6886_ACCEL_XOUT_H 6
  let s := xSemaphoreGive s
  (s, decodeI16 (buf.getD 0 0) (buf.getD 1 0),
      decodeI16 (buf.getD 2 0) (buf.getD 3 0),
      decodeI16 (buf.getD 4 0) (buf.getD 5 0))

def getGyroAdc (s : Driver) : Driver × Int × Int × Int :=
  let s := xSemaphoreTake s
  let (s, buf) := I2C_Read_NBytes s MPU6886_ADDRESS MPU6886_GYRO_XOUT_H 6
  let s := xSemaphoreGive s
  (s, decodeU16 (buf.getD 0 0) (buf.getD 1 0),
      decodeU16 (buf.getD 2 0) (buf.getD 3 0),
      decodeU16 (buf.getD 4 0) (buf.getD 5 0))

def getTempAdc (s : Driver) : Driver × Int :=
  let s := xSemaphoreTake s
  let (s, buf) := I2C_Read_NBytes s MPU6886_ADDRESS MPU6886_TEMP_OUT_H 2
  let s := xSemaphoreGive s
  (s, decodeU16 (buf.getD 0 0) (buf.getD 1 0))

/-- The overload `getAllAdc(int16_t* data)`. -/
def getAllAdc (s : Driver) : Driver × List Int :=
  let s := xSemaphoreTake s
  let (s, buf) := I2C_Read_NBytes s MPU6886_ADDRESS MPU6886_ACCEL_XOUT_H 14
  let s := xSemaphoreGive s
  (s, [decodeI16 (buf.getD 0 0) (buf.getD 1 0),
       decodeI16 (buf.getD 2 0) (buf.getD 3 0),
       decodeI16 (buf.getD 4 0) (buf.getD 5 0),
       decodeI16 (buf.getD 6 0) (buf.getD 7 0),
       decodeI16 (buf.getD 8 0) (buf.getD 9 0),
       decodeI16 (buf.getD 10 0) (buf.getD 11 0),
       decodeI16 (buf.getD 12 0) (buf.getD 13 0)])

/-- The overload `getAllAdc(uint8_t* data)`. -/
def getAllAdc_u8 (s : Driver) : Driver × List Nat :=
  let s := xSemaphoreTake s
  let (s, data) := I2C_Read_NBytes s MPU6886_ADDRESS MPU6886_ACCEL_XOUT_H 14
  let s := xSemaphoreGive s
  (s, data)

/-! ## Scaled reads -/

def getAccelData (s : Driver) : Driver × ℚ × ℚ × ℚ :=
  let (s, accX, accY, accZ) := getAccelAdc s
  let s := emit s (Event.cfgRd Field.aRes)
  let ax := (accX : ℚ) * s.aRes
  let s := emit s (Event.cfgRd Field.aRes)
  let ay := (accY : ℚ) * s.aRes
  let s := emit s (Event.cfgRd Field.aRes)
  let az := (accZ : ℚ) * s.aRes
  (s, ax, ay, az)

def getGyroData (s : Driver) (is_radian : Bool) : Driver × ℚ × ℚ × ℚ :=
  let (s, gyroX, gyroY, gyroZ) := getGyroAdc s
  if is_radian then
    let s := emit s (Event.cfgRd Field.gRadRes)
    let gx := (gyroX : ℚ) * s.gRadRes
    let s := emit s (Event.cfgRd Field.gRadRes)
    let gy := (gyroY : ℚ) * s.gRadRes
    let s := emit s (Event.cfgRd Field.gRadRes)
    let gz := (gyroZ : ℚ) * s.gRadRes
    (s, gx, gy, gz)
  else
    let s := emit s (Event.cfgRd Field.gRes)
    let gx := (gyroX : ℚ) * s.gRes
    let s := emit s (Event.cfgRd Field.gRes)
    let gy := (gyroY : ℚ) * s.gRes
    let s := emit s (Event.cfgRd Field.gRes)
    let gz := (gyroZ : ℚ) * s.gRes
    (s, gx, gy, gz)

def getTempData (s : Driver) : Driver × ℚ :=
  let (s, temp) := getTempAdc s
  (s, (temp : ℚ) / 326.8 + 25.0)

/-! ## FIFO -/

def startFifo (s : Driver) (accel_enable gyro_enable : Bool) : Driver :=
  let s := xSemaphoreTake s
  let s := I2C_Write_NBytes s MPU6886_ADDRESS MPU6886_USER_CTRL 1 [0x04]
  let s := delay s 1
  let s := I2C_Write_NBytes s MPU6886_ADDRESS MPU6886_USER_CTRL 1 [0x40]
  let regdata := 0
  let regdata := if accel_enable then regdata ||| 0x08 else regdata
  let regdata := if gyro_enable then regdata ||| 0x10 else regdata
  let s := I2C_Write_NBytes s MPU6886_ADDRESS MPU6886_FIFO_EN 1 [regdata]
  xSemaphoreGive s

def getFifoSize (s : Driver) : Driver × Nat :=
  let s := xSemaphoreTake s
  let (s, count) := I2C_Read_NBytes s MPU6886_ADDRESS MPU6886_FIFO_COUNTH 2
  let s := xSemaphoreGive s
  (s, ((((count.getD 0 0) % 65536) <<< 8) ||| count.getD 1 0) % 65536)

def getFifo (s : Driver) (size : Nat) : Driver × List Nat :=
  let s := xSemaphoreTake s
  let (s, data) := I2C_Read_NBytes s MPU6886_ADDRESS MPU6886_FIFO_R_W (toUInt8 size)
  let s := xSemaphoreGive s
  (s, data)

def stopFifo (s : Driver) : Driver :=
  let s := xSemaphoreTake s
  let s := I2C_Write_NBytes s MPU6886_ADDRESS MPU6886_FIFO_EN 1 [0x00]
  xSemaphoreGive s

/-! ## Gyroscope offsets -/

/-- The `switch (now_gscale)` that opens each of the three offset setters;
the result is stored back into the `int16_t` parameter. -/
def scaleOffset (now_gscale : Nat) (offset : Int) : Int :=
  if now_gscale = GFS_250DPS then toInt16 (Int.tdiv offset 4)
  else if now_gscale = GFS_500DPS then toInt16 (Int.tdiv offset 2)
  else if now_gscale = GFS_2000DPS then toInt16 (offset * 2)
  else offset

def setGyroXoffset (s : Driver) (offset : Int) : Driver :=
  let offset := toInt16 offset
  let s := emit s (Event.cfgRd Field.gscale)
  let offset := scaleOffset s.now_gscale offset
  let regarr := [highByte offset, lowByte offset]
  let s := xSemaphoreTake s
  let s := I2C_Write_NBytes s MPU6886_ADDRESS MPU6886_XG_OFFS_USRH 2 regarr
  let s := xSemaphoreGive s
  delay s 1

def setGyroYoffset (s : Driver) (offset : Int) : Driver :=
  let offset := toInt16 offset
  let s := emit s (Event.cfgRd Field.gscale)
  let offset := scaleOffset s.now_gscale offset
  let regarr := [highByte offset, lowByte offset]
  let s := xSemaphoreTake s
  let s := I2C_Write_NBytes s MPU6886_ADDRESS MPU6886_YG_OFFS_USRH 2 regarr
  let s := xSemaphoreGive s
  delay s 1

def setGyroZoffset (s : Driver) (offset : Int) : Driver :=
  let offset := toInt16 offset
  let s := emit s (Event.cfgRd Field.gscale)
  let offset := scaleOffset s.now_gscale offset
  let regarr := [highByte offset, lowByte offset]
  let s := xSemaphoreTake s
  let s := I2C_Write_NBytes s MPU6886_ADDRESS MPU6886_ZG_OFFS_USRH 2 regarr
  let s := xSemaphoreGive s
  delay s 1

/-- The `for` loop of `gyro_zero_cal`, with `n` iterations left. -/
def calLoop : Nat → Driver → Int × Int × Int → Driver × Int × Int × Int
  | 0, s, avg => (s, avg)
  | n + 1, s, (avgX, avgY, avgZ) =>
    let (s, gyrX, gyrY, gyrZ) := getGyroAdc s
    let s := delay s 10
    calLoop n s (toInt32 (avgX + gyrX), toInt32 (avgY + gyrY), toInt32 (avgZ + gyrZ))

def gyro_zero_cal (s : Driver) : Driver :=
  let (s, avgX, avgY, avgZ) := calLoop MPU6886_CAL_AVG_TIMES s (0, 0, 0)
  let s := setGyroXoffset s (Int.tdiv (toInt32 (-avgX)) MPU6886_CAL_AVG_TIMES)
  let s := setGyroYoffset s (Int.tdiv (toInt32 (-avgY)) MPU6886_CAL_AVG_TIMES)
  setGyroZoffset s (Int.tdiv (toInt32 (-avgZ)) MPU6886_CAL_AVG_TIMES)

/-! ## The public interface as a transition system -/

/-- A call of a public member function, with its arguments. -/
inductive Op where
  | init (sda scl wire : Nat)
  | getAccelAdc | getGyroAdc | getTempAdc | getAllAdc | getAllAdc_u8
  | getAccelData | getGyroData (is_radian : Bool) | getTempData
  | setGyroFsr (scale : Nat) | setAccelFsr (scale : Nat)
  | setGyroFilter (filter : Nat) | setAccelFilter (filter : Nat)
  | setSampleDivider (divide : Nat)
  | startFifo (accel_enable gyro_enable : Bool)
  | getFifoSize | getFifo (size : Nat) | stopFifo
  | setGyroXoffset (offset : Int) | setGyroYoffset (offset : Int)
  | setGyroZoffset (offset : Int)
  | gyro_zero_cal

/-- The state after a call. -/
def step (s : Driver) : Op → Driver
  | Op.init sda scl wire => (init s sda scl wire).1
  | Op.getAccelAdc => (getAccelAdc s).1
  | Op.getGyroAdc => (getGyroAdc s).1
  | Op.getTempAdc => (getTempAdc s).1
  | Op.getAllAdc => (getAllAdc s).1
  | Op.getAllAdc_u8 => (getAllAdc_u8 s).1
  | Op.getAccelData => (getAccelData s).1
  | Op.getGyroData r => (getGyroData s r).1
  | Op.getTempData => (getTempData s).1
  | Op.setGyroFsr scale => setGyroFsr s scale
  | Op.setAccelFsr scale => setAccelFsr s scale
  | Op.setGyroFilter filter => setGyroFilter s filter
  | Op.setAccelFilter filter => setAccelFilter s filter
  | Op.setSampleDivider divide => setSampleDivider s divide
  | Op.startFifo a g => startFifo s a g
  | Op.getFifoSize => (getFifoSize s).1
  | Op.getFifo size => (getFifo s size).1
  | Op.stopFifo => stopFifo s
  | Op.setGyroXoffset offset => setGyroXoffset s offset
  | Op.setGyroYoffset offset => setGyroYoffset s offset
  | Op.setGyroZoffset offset => setGyroZoffset s offset
  | Op.gyro_zero_cal => gyro_zero_cal s

/-- The state after a sequence of calls. -/
def run (s : Driver) (ops : List Op) : Driver := ops.foldl step s

/-- A driver state for evaluation: nothing cached, nothing written, and a
device that answers every read with the byte `dev a` of register `a`. -/
def blank (dev : Nat → Nat) : Driver :=
  { p_wire := 0, now_ascale := 0, now_gscale := 0, now_gfilter := 0, now_afilter := 0,
    now_sample_divider := 0, aRes := 0, gRes := 0, gRadRes := 0,
    device := fun _ a => dev a, nreads := 0, written := fun _ => none, trace := [] }

/-- A concrete initialised driver: `init` on a bus whose device answers every
read with 0x19, so that the identity check passes. -/
def initialised : Driver := (init (blank fun _ => 0x19) 21 22 1).1

/-- The byte the next read transaction returns for register `reg`. -/
def Driver.nextByte (s : Driver) (reg : Nat) : Nat := s.device s.nreads reg % 256

/-! ## Notions used in the statements -/

/-- Big-endian two's complement: `v` is an `int16_t` value congruent to
`256 * hi + lo` modulo 2^16. -/
def IsBE16 (hi lo : Nat) (v : Int) : Prop :=
  -32768 ≤ v ∧ v ≤ 32767 ∧ (v - (256 * (hi : Int) + lo)) % 65536 = 0

instance IsBE16.decidable (hi lo : Nat) (v : Int) : Decidable (IsBE16 hi lo v) := by
  unfold IsBE16
  exact inferInstance

/-- The value `v` is the big-endian two's-complement reading of `hi`, `lo`,
it is the only one, and it is negative when the top bit of `hi` is set. -/
def DecodesBE16 (hi lo : Nat) (v : Int) : Prop :=
  IsBE16 hi lo v ∧ (∀ w, IsBE16 hi lo w → w = v) ∧ (0x80 ≤ hi → v < 0)

/-- The range factor in the words of the specification, over the integers:
÷4 at ±250 dps, ÷2 at ±500 dps, ×2 at ±2000 dps, unscaled otherwise (division
truncating toward zero). -/
def specRangeFactor (range : Nat) (offset : Int) : Int :=
  if range = GFS_250DPS then Int.tdiv offset 4
  else if range = GFS_500DPS then Int.tdiv offset 2
  else if range = GFS_2000DPS then offset * 2
  else offset

/-- The gyroscope sample the device returns during read transaction `k`. -/
def gyroSampleAt (s : Driver) (k : Nat) : Int × Int × Int :=
  (getGyroAdc { s with nreads := k }).2

/-- A stationary sensor whose gyroscope block constantly reads (100, -50, 30);
the identity register reads 0x19. -/
def stationaryDevice (a : Nat) : Nat :=
  if a = 0x75 then 0x19 else if a = 0x44 then 0x64 else if a = 0x45 then 0xFF
  else if a = 0x46 then 0xCE else if a = 0x48 then 0x1E else 0

/-- The driver initialised on `stationaryDevice` (±500 dps). -/
def stationary : Driver := (init (blank stationaryDevice) 21 22 1).1

/-- A sensor whose gyroscope X axis constantly reads 0x8000 = -32768. -/
def minDevice (a : Nat) : Nat :=
  if a = 0x75 then 0x19 else if a = 0x43 then 0x80 else 0

/-- The driver initialised on `minDevice` and switched to ±250 dps. -/
def minAt250 : Driver := setGyroFsr (init (blank minDevice) 21 22 1).1 GFS_250DPS

/-- The cached resolutions are those of the cached ranges. -/
def Fresh (s : Driver) : Prop :=
  s.aRes = aresOf s.now_ascale ∧ s.gRes = (gresOf s.now_gscale).1 ∧
    s.gRadRes = (gresOf s.now_gscale).2

instance Fresh.decidable (s : Driver) : Decidable (Fresh s) := by
  unfold Fresh
  exact inferInstance

/-- A device whose temperature registers read 0x0CC4 = 3268. -/
def warmDevice (a : Nat) : Nat := if a = 0x41 then 0x0C else if a = 0x42 then 0xC4 else 0

/-! ## Mutex discipline on event traces -/

/-- A register read or a register write. -/
def Event.isRegister : Event → Bool
  | Event.busRead _ _ _ => true
  | Event.busWrite _ _ _ => true
  | _ => false

/-- A read or a write of a cached configuration member. -/
def Event.isCfg : Event → Bool
  | Event.cfgRd _ => true
  | Event.cfgWr _ => true
  | _ => false

/-- A write of a cached configuration member. -/
def Event.isCfgWr : Event → Bool
  | Event.cfgWr _ => true
  | _ => false

/-- A write of a cached range, filter or divider. -/
def Event.isSettingWr : Event → Bool
  | Event.cfgWr Field.ascale => true
  | Event.cfgWr Field.gscale => true
  | Event.cfgWr Field.gfilter => true
  | Event.cfgWr Field.afilter => true
  | Event.cfgWr Field.divider => true
  | _ => false

/-- Scan of a trace from the mutex state `held`. The result is `none` when a
take occurs while the mutex is held, a give while it is released, or an event
selected by `p` while it is released; otherwise it is the final mutex state. -/
def guarded (p : Event → Bool) : Bool → List Event → Option Bool
  | held, [] => some held
  | held, Event.take :: es => if held then none else guarded p true es
  | held, Event.give :: es => if held then guarded p false es else none
  | held, e :: es => if p e && !held then none else guarded p held es

/-- The events of one call, started with an empty trace. -/
def opTrace (s : Driver) (op : Op) : List Event := (step { s with trace := [] } op).trace

/-- The call is `init`. -/
def Op.isInit : Op → Bool
  | Op.init _ _ _ => true
  | _ => false

/-- The calls that read a cached member while the mutex is released: the
scaled reads of acceleration and angular rate, the three offset setters, and
`gyro_zero_cal`, which calls the offset setters. -/
def Op.readsUnlocked : Op → Bool
  | Op.getAccelData => true
  | Op.getGyroData _ => true
  | Op.setGyroXoffset _ => true
  | Op.setGyroYoffset _ => true
  | Op.setGyroZoffset _ => true
  | Op.gyro_zero_cal => true
  | _ => false

theorem busWrites_append (a b : List Event) :
    busWrites (a ++ b) = busWrites a ++ busWrites b := by
  induction a with
  | nil => rfl
  | cons e es ih => cases e <;> simp [busWrites, ih]

/-- The comparison `enumGt` is the signed 32-bit comparison. -/
theorem enumGt_iff (e k : Nat) (hk : k < 2147483648) :
    enumGt e k ↔ toInt32 (e : Int) > (k : Int) := by
  unfold enumGt toInt32
  omega

/-- The range guard lets the four enumerators through. -/
theorem range_guard_neg (r : Nat) (h : r ≤ 3) : ¬ enumGt r 3 := by
  unfold enumGt
  omega

/-- The range guard rejects the underlying values 4 .. 2^31 - 1. -/
theorem range_guard_pos (r : Nat) (h1 : 3 < r) (h2 : r < 2147483648) : enumGt r 3 := by
  unfold enumGt
  omega

/-! ## Rounding -/

theorem roundHalfEven_eq (q : ℚ) (m : ℤ) (h1 : (m : ℚ) - 1 / 2 < q)
    (h2 : q < (m : ℚ) + 1 / 2) : roundHalfEven q = m := by
  unfold roundHalfEven
  by_cases hq : (m : ℚ) ≤ q
  · have hf : ⌊q⌋ = m := by
      rw [Int.floor_eq_iff]
      constructor
      · exact hq
      · linarith
    rw [hf, if_pos (by linarith)]
  · push_neg at hq
    have hf : ⌊q⌋ = m - 1 := by
      rw [Int.floor_eq_iff]
      push_cast
      constructor <;> linarith
    rw [hf]
    push_cast
    rw [if_neg (by linarith), if_pos (by linarith)]
    ring

theorem log2_eq (x : ℚ) (l : ℤ) (hx : 0 < x) (h1 : (2 : ℚ) ^ l ≤ x)
    (h2 : x < (2 : ℚ) ^ (l + 1)) : Int.log 2 |x| = l := by
  rw [abs_of_pos hx]
  have a : l ≤ Int.log 2 x :=
    (Int.zpow_le_iff_le_log (by norm_num) hx).1 (by exact_mod_cast h1)
  have b : Int.log 2 x < l + 1 :=
    (Int.lt_zpow_iff_log_lt (by norm_num) hx).1 (by exact_mod_cast h2)
  omega

/-- Evaluation of a rounding: `x` lies in the binade of `2 ^ l` and the scaled
value is within one half of the integer `m`. -/
theorem roundBinary_eq (prec : Nat) (x : ℚ) (l m : ℤ) (hx : 0 < x)
    (h1 : (2 : ℚ) ^ l ≤ x) (h2 : x < (2 : ℚ) ^ (l + 1))
    (h3 : (m : ℚ) - 1 / 2 < x / 2 ^ (l - ((prec : ℤ) - 1)))
    (h4 : x / 2 ^ (l - ((prec : ℤ) - 1)) < (m : ℚ) + 1 / 2) :
    roundBinary prec x = (m : ℚ) * 2 ^ (l - ((prec : ℤ) - 1)) := by
  unfold roundBinary
  rw [if_neg hx.ne', log2_eq x l hx h1 h2, roundHalfEven_eq _ m h3 h4]

theorem toDouble_pi_literal : toDouble 3.14159265 = 7074237743944945 * 2 ^ (-51 : ℤ) := by
  have h := roundBinary_eq 53 3.14159265 1 7074237743944945 (by norm_num) (by norm_num)
    (by norm_num) (by norm_num) (by norm_num)
  simpa [toDouble] using h

theorem gradOf_250 : gradOf 250 = 1143819 / 8589934592 := by
  have hb : toDouble (250 / 32768 / 180) = 6254999482459022 * 2 ^ (-67 : ℤ) := by
    have h := roundBinary_eq 53 (250 / 32768 / 180) (-15) 6254999482459022 (by norm_num)
      (by norm_num) (by norm_num) (by norm_num) (by norm_num)
    simpa [toDouble] using h
  have hd : toDouble (6254999482459022 * 2 ^ (-67 : ℤ) * (7074237743944945 * 2 ^ (-51 : ℤ)))
      = 4912665099961767 * 2 ^ (-65 : ℤ) := by
    have h := roundBinary_eq 53
      (6254999482459022 * 2 ^ (-67 : ℤ) * (7074237743944945 * 2 ^ (-51 : ℤ))) (-13)
      4912665099961767 (by norm_num) (by norm_num) (by norm_num) (by norm_num) (by norm_num)
    simpa [toDouble] using h
  have hg : toFloat (4912665099961767 * 2 ^ (-65 : ℤ)) = 9150552 * 2 ^ (-36 : ℤ) := by
    have h := roundBinary_eq 24 (4912665099961767 * 2 ^ (-65 : ℤ)) (-13) 9150552
      (by norm_num) (by norm_num) (by norm_num) (by norm_num) (by norm_num)
    simpa [toFloat] using h
  have e : ((250 : ℚ) / 32768.0 / 180) = 250 / 32768 / 180 := by norm_num
  unfold gradOf
  rw [e, hb, toDouble_pi_literal, hd, hg]
  norm_num

theorem gradOf_500 : gradOf 500 = 1143819 / 4294967296 := by
  have hb : toDouble (500 / 32768 / 180) = 6254999482459022 * 2 ^ (-66 : ℤ) := by
    have h := roundBinary_eq 53 (500 / 32768 / 180) (-14) 6254999482459022 (by norm_num)
      (by norm_num) (by norm_num) (by norm_num) (by norm_num)
    simpa [toDouble] using h
  have hd : toDouble (6254999482459022 * 2 ^ (-66 : ℤ) * (7074237743944945 * 2 ^ (-51 : ℤ)))
      = 4912665099961767 * 2 ^ (-64 : ℤ) := by
    have h := roundBinary_eq 53
      (6254999482459022 * 2 ^ (-66 : ℤ) * (7074237743944945 * 2 ^ (-51 : ℤ))) (-12)
      4912665099961767 (by norm_num) (by norm_num) (by norm_num) (by norm_num) (by norm_num)
    simpa [toDouble] using h
  have hg : toFloat (4912665099961767 * 2 ^ (-64 : ℤ)) = 9150552 * 2 ^ (-35 : ℤ) := by
    have h := roundBinary_eq 24 (4912665099961767 * 2 ^ (-64 : ℤ)) (-12) 9150552
      (by norm_num) (by norm_num) (by norm_num) (by norm_num) (by norm_num)
    simpa [toFloat] using h
  have e : ((500 : ℚ) / 32768.0 / 180) = 500 / 32768 / 180 := by norm_num
  unfold gradOf
  rw [e, hb, toDouble_pi_literal, hd, hg]
  norm_num

theorem gradOf_1000 : gradOf 1000 = 1143819 / 2147483648 := by
  have hb : toDouble (1000 / 32768 / 180) = 6254999482459022 * 2 ^ (-65 : ℤ) := by
    have h := roundBinary_eq 53 (1000 / 32768 / 180) (-13) 6254999482459022 (by norm_num)
      (by norm_num) (by norm_num) (by norm_num) (by norm_num)
    simpa [toDouble] using h
  have hd : toDouble (6254999482459022 * 2 ^ (-65 : ℤ) * (7074237743944945 * 2 ^ (-51 : ℤ)))
      = 4912665099961767 * 2 ^ (-63 : ℤ) := by
    have h := roundBinary_eq 53
      (6254999482459022 * 2 ^ (-65 : ℤ) * (7074237743944945 * 2 ^ (-51 : ℤ))) (-11)
      4912665099961767 (by norm_num) (by norm_num) (by norm_num) (by norm_num) (by norm_num)
    simpa [toDouble] using h
  have hg : toFloat (4912665099961767 * 2 ^ (-63 : ℤ)) = 9150552 * 2 ^ (-34 : ℤ) := by
    have h := roundBinary_eq 24 (4912665099961767 * 2 ^ (-63 : ℤ)) (-11) 9150552
      (by norm_num) (by norm_num) (by norm_num) (by norm_num) (by norm_num)
    simpa [toFloat] using h
  have e : ((1000 : ℚ) / 32768.0 / 180) = 1000 / 32768 / 180 := by norm_num
  unfold gradOf
  rw [e, hb, toDouble_pi_literal, hd, hg]
  norm_num

theorem gradOf_2000 : gradOf 2000 = 1143819 / 1073741824 := by
  have hb : toDouble (2000 / 32768 / 180) = 6254999482459022 * 2 ^ (-64 : ℤ) := by
    have h := roundBinary_eq 53 (2000 / 32768 / 180) (-12) 6254999482459022 (by norm_num)
      (by norm_num) (by norm_num) (by norm_num) (by norm_num)
    simpa [toDouble] using h
  have hd : toDouble (6254999482459022 * 2 ^ (-64 : ℤ) * (7074237743944945 * 2 ^ (-51 : ℤ)))
      = 4912665099961767 * 2 ^ (-62 : ℤ) := by
    have h := roundBinary_eq 53
      (6254999482459022 * 2 ^ (-64 : ℤ) * (7074237743944945 * 2 ^ (-51 : ℤ))) (-10)
      4912665099961767 (by norm_num) (by norm_num) (by norm_num) (by norm_num) (by norm_num)
    simpa [toDouble] using h
  have hg : toFloat (4912665099961767 * 2 ^ (-62 : ℤ)) = 9150552 * 2 ^ (-33 : ℤ) := by
    have h := roundBinary_eq 24 (4912665099961767 * 2 ^ (-62 : ℤ)) (-10) 9150552
      (by norm_num) (by norm_num) (by norm_num) (by norm_num) (by norm_num)
    simpa [toFloat] using h
  have e : ((2000 : ℚ) / 32768.0 / 180) = 2000 / 32768 / 180 := by norm_num
  unfold gradOf
  rw [e, hb, toDouble_pi_literal, hd, hg]
  norm_num

theorem gresOf_values :
    gresOf GFS_250DPS = (250 / 32768, 1143819 / 8589934592) ∧
    gresOf GFS_500DPS = (500 / 32768, 1143819 / 4294967296) ∧
    gresOf GFS_1000DPS = (1000 / 32768, 1143819 / 2147483648) ∧
    gresOf GFS_2000DPS = (2000 / 32768, 1143819 / 1073741824) := by
  have e250 : gradOf 250.0 = gradOf 250 := by norm_num
  have e500 : gradOf 500.0 = gradOf 500 := by norm_num
  have e1000 : gradOf 1000.0 = gradOf 1000 := by norm_num
  have e2000 : gradOf 2000.0 = gradOf 2000 := by norm_num
  refine ⟨?_, ?_, ?_, ?_⟩
  · simp only [gresOf, if_true, e250, gradOf_250]; norm_num
  · simp only [gresOf, e500, gradOf_500]; norm_num
  · simp only [gresOf, e1000, gradOf_1000]; norm_num
  · simp only [gresOf, e2000, gradOf_2000]; norm_num

/-! ## Gyroscope range and filter share GYRO_CONFIG -/

/-- Claim C1: for every valid gyroscope range `r` and every filter argument
`f`, after `setGyroFsr r` followed by `setGyroFilter f` the cached range is
still `r`, and bits 4:3 of the byte last written to GYRO_CONFIG (0x1B)
encode `r`. -/
theorem C1_setGyroFilter_keeps_range (s : Driver) (r f : Nat) (hr : r ≤ GFS_2000DPS) :
    (setGyroFilter (setGyroFsr s r) f).now_gscale = r ∧
    ∃ v, (setGyroFilter (setGyroFsr s r) f).written MPU6886_GYRO_CONFIG = some v ∧
      (v >>> 3) % 4 = r := by
  have h4 : r ≤ 3 := hr
  have h3 : ¬ enumGt r GFS_2000DPS := range_guard_neg r h4
  simp only [setGyroFilter, setGyroFsr, if_neg h3]
  simp [emit, xSemaphoreTake, xSemaphoreGive, delay, I2C_Write_NBytes, storeBytes, getGres,
    toUInt8]
  interval_cases r <;> rfl

/-- Claim C1 at ±1000 dps followed by the filter GNFIL_3281. -/
theorem C1_setGyroFilter_keeps_range_witness :
    GFS_1000DPS ≤ GFS_2000DPS ∧
    (setGyroFilter (setGyroFsr (blank fun _ => 0) GFS_1000DPS) GNFIL_3281).now_gscale
      = GFS_1000DPS ∧
    ∃ v, (setGyroFilter (setGyroFsr (blank fun _ => 0) GFS_1000DPS) GNFIL_3281).written
        MPU6886_GYRO_CONFIG = some v ∧ (v >>> 3) % 4 = GFS_1000DPS :=
  ⟨by decide,
    C1_setGyroFilter_keeps_range (blank fun _ => 0) GFS_1000DPS GNFIL_3281 (by decide)⟩

/-- Claim C2, evaluated where it fails: on an initialised driver
`setGyroFilter GNFIL_3281` takes the low-pass branch, so it writes
CONFIG = 0x48 and GYRO_CONFIG = 0x08 (filter-choice bits 00) while caching
the filter; the following `setGyroFsr GFS_500DPS` keeps the cached filter and
CONFIG but writes GYRO_CONFIG = 0x0A, so bits 1:0 change from 00 to 10. -/
theorem C2_setGyroFsr_changes_fchoice_bits :
    (setGyroFilter initialised GNFIL_3281).now_gfilter = GNFIL_3281 ∧
    (setGyroFilter initialised GNFIL_3281).written MPU6886_CONFIG = some 0x48 ∧
    (setGyroFilter initialised GNFIL_3281).written MPU6886_GYRO_CONFIG = some 0x08 ∧
    (setGyroFsr (setGyroFilter initialised GNFIL_3281) GFS_500DPS).now_gfilter
      = GNFIL_3281 ∧
    (setGyroFsr (setGyroFilter initialised GNFIL_3281) GFS_500DPS).written MPU6886_CONFIG
      = some 0x48 ∧
    (setGyroFsr (setGyroFilter initialised GNFIL_3281) GFS_500DPS).written
      MPU6886_GYRO_CONFIG = some 0x0A ∧
    (0x08 % 4 ≠ 0x0A % 4) := by
  decide

/-- Claim C3, evaluated where it fails: `setGyroFilter` caches every
argument, enumerated or not, and writes it (with bit 6 set) to CONFIG; on an
initialised driver, whose cached filter is GFIL_176, the argument 10 becomes
the cached filter. -/
theorem C3_setGyroFilter_caches_any_argument :
    (∀ (s : Driver) (filter : Nat),
      (setGyroFilter s filter).now_gfilter = filter ∧
      (setGyroFilter s filter).written MPU6886_CONFIG = some ((filter ||| 0x40) % 256)) ∧
    initialised.now_gfilter = GFIL_176 ∧
    (setGyroFilter initialised 10).now_gfilter = 10 ∧
    (setGyroFilter initialised 10).written MPU6886_CONFIG = some 0x4A := by
  refine ⟨fun s filter => ?_, by decide, by decide, by decide⟩
  simp [setGyroFilter, emit, xSemaphoreTake, xSemaphoreGive, delay, I2C_Write_NBytes,
    storeBytes, toUInt8]

/-! ## Range setters -/

theorem shl8_or (hi lo : Nat) (hlo : lo < 256) : (hi <<< 8) ||| lo = 256 * hi + lo := by
  have h := Nat.mul_add_lt_is_or (i := 8) (b := lo) (by simpa using hlo) hi
  rw [Nat.shiftLeft_eq, Nat.mul_comm]
  simpa using h.symm

theorem decodeU16_eq (hi lo : Nat) (hhi : hi < 256) (hlo : lo < 256) :
    decodeU16 hi lo = toInt16 (256 * (hi : Int) + lo) := by
  have h : hi % 65536 = hi := Nat.mod_eq_of_lt (by omega)
  simp only [decodeU16, h, shl8_or hi lo hlo]
  push_cast
  rfl

theorem decodeI16_eq (hi lo : Nat) (hhi : hi < 256) (hlo : lo < 256) :
    decodeI16 hi lo = toInt16 (256 * (hi : Int) + lo) := by
  have h : (toInt16 (hi : Int)).toNat = hi := by
    unfold toInt16
    omega
  simp only [decodeI16, h, shl8_or hi lo hlo]
  push_cast
  rfl

theorem toInt16_isBE16 (hi lo : Nat) : IsBE16 hi lo (toInt16 (256 * (hi : Int) + lo)) := by
  unfold IsBE16 toInt16
  omega

theorem isBE16_unique (hi lo : Nat) (v w : Int) (hv : IsBE16 hi lo v)
    (hw : IsBE16 hi lo w) : v = w := by
  unfold IsBE16 at hv hw
  omega

theorem isBE16_neg (hi lo : Nat) (v : Int) (hv : IsBE16 hi lo v) (hhi : 128 ≤ hi)
    (h1 : hi < 256) (hlo : lo < 256) : v < 0 := by
  unfold IsBE16 at hv
  omega

theorem decodesBE16_toInt16 (hi lo : Nat) (hhi : hi < 256) (hlo : lo < 256) :
    DecodesBE16 hi lo (toInt16 (256 * (hi : Int) + lo)) :=
  ⟨toInt16_isBE16 hi lo, fun w hw => isBE16_unique hi lo w _ hw (toInt16_isBE16 hi lo),
    fun h => isBE16_neg hi lo _ (toInt16_isBE16 hi lo) h hhi hlo⟩

theorem nextByte_lt (s : Driver) (reg : Nat) : s.nextByte reg < 256 := by
  unfold Driver.nextByte
  omega

theorem getAccelAdc_val (s : Driver) :
    (getAccelAdc s).2 =
      (decodeI16 (s.nextByte 0x3B) (s.nextByte 0x3C),
       decodeI16 (s.nextByte 0x3D) (s.nextByte 0x3E),
       decodeI16 (s.nextByte 0x3F) (s.nextByte 0x40)) := by
  simp [getAccelAdc, I2C_Read_NBytes, Driver.nextByte, List.range_succ, xSemaphoreTake,
    xSemaphoreGive, emit]

theorem getGyroAdc_val (s : Driver) :
    (getGyroAdc s).2 =
      (decodeU16 (s.nextByte 0x43) (s.nextByte 0x44),
       decodeU16 (s.nextByte 0x45) (s.nextByte 0x46),
       decodeU16 (s.nextByte 0x47) (s.nextByte 0x48)) := by
  simp [getGyroAdc, I2C_Read_NBytes, Driver.nextByte, List.range_succ, xSemaphoreTake,
    xSemaphoreGive, emit]

/-- Claim C7: when the device returns the same content of the fourteen
output registers 0x3B..0x48 during four consecutive read transactions, the
seven values of `getAllAdc(int16_t*)` are, in order, the three values of a
following `getAccelAdc`, the value of a following `getTempAdc` and the three
values of a following `getGyroAdc`. -/
theorem C7_getAllAdc_splits (s : Driver)
    (h : ∀ reg, MPU6886_ACCEL_XOUT_H ≤ reg → reg < MPU6886_ACCEL_XOUT_H + 14 →
      ∀ k, k ≤ 3 → s.device (s.nreads + k) reg = s.device s.nreads reg) :
    (getAllAdc s).2 =
      [(getAccelAdc (getAllAdc s).1).2.1,
       (getAccelAdc (getAllAdc s).1).2.2.1,
       (getAccelAdc (getAllAdc s).1).2.2.2,
       (getTempAdc (getAccelAdc (getAllAdc s).1).1).2,
       (getGyroAdc (getTempAdc (getAccelAdc (getAllAdc s).1).1).1).2.1,
       (getGyroAdc (getTempAdc (getAccelAdc (getAllAdc s).1).1).1).2.2.1,
       (getGyroAdc (getTempAdc (getAccelAdc (getAllAdc s).1).1).1).2.2.2] := by
  have e : ∀ a b : Nat, decodeU16 (a % 256) (b % 256) = decodeI16 (a % 256) (b % 256) := by
    intro a b
    rw [decodeU16_eq _ _ (Nat.mod_lt _ (by decide)) (Nat.mod_lt _ (by decide)),
      decodeI16_eq _ _ (Nat.mod_lt _ (by decide)) (Nat.mod_lt _ (by decide))]
  simp [getAllAdc, getAccelAdc, getTempAdc, getGyroAdc, I2C_Read_NBytes, List.range_succ,
    xSemaphoreTake, xSemaphoreGive, emit, e, MPU6886_ACCEL_XOUT_H, MPU6886_TEMP_OUT_H,
    MPU6886_GYRO_XOUT_H]
  have h1 : ∀ reg, 0x3B ≤ reg → reg < 0x3B + 14 →
      s.device (s.nreads + 1) reg = s.device s.nreads reg :=
    fun reg a b => h reg a b 1 (by decide)
  have h2 : ∀ reg, 0x3B ≤ reg → reg < 0x3B + 14 →
      s.device (s.nreads + 1 + 1) reg = s.device s.nreads reg :=
    fun reg a b => h reg a b 2 (by decide)
  have h3 : ∀ reg, 0x3B ≤ reg → reg < 0x3B + 14 →
      s.device (s.nreads + 1 + 1 + 1) reg = s.device s.nreads reg :=
    fun reg a b => h reg a b 3 (by decide)
  simp [h1, h2, h3]

/-- Claim C7 on a device whose register `a` always reads `3 * a` (mod 256). -/
theorem C7_getAllAdc_splits_witness :
    (∀ reg, MPU6886_ACCEL_XOUT_H ≤ reg → reg < MPU6886_ACCEL_XOUT_H + 14 →
      ∀ k, k ≤ 3 → (blank fun a => 3 * a).device ((blank fun a => 3 * a).nreads + k) reg
        = (blank fun a => 3 * a).device (blank fun a => 3 * a).nreads reg) ∧
    (getAllAdc (blank fun a => 3 * a)).2 =
      [(getAccelAdc (getAllAdc (blank fun a => 3 * a)).1).2.1,
       (getAccelAdc (getAllAdc (blank fun a => 3 * a)).1).2.2.1,
       (getAccelAdc (getAllAdc (blank fun a => 3 * a)).1).2.2.2,
       (getTempAdc (getAccelAdc (getAllAdc (blank fun a => 3 * a)).1).1).2,
       (getGyroAdc (getTempAdc (getAccelAdc (getAllAdc (blank fun a => 3 * a)).1).1).1).2.1,
       (getGyroAdc (getTempAdc (getAccelAdc (getAllAdc (blank fun a => 3 * a)).1).1).1).2.2.1,
       (getGyroAdc (getTempAdc (getAccelAdc (getAllAdc (blank fun a => 3 * a)).1).1).1).2.2.2] :=
  ⟨fun _ _ _ _ _ => rfl, C7_getAllAdc_splits _ (fun _ _ _ _ _ => rfl)⟩

/-- Claim C8: each axis value returned by `getAccelAdc` (bytes from 0x3B) and
by `getGyroAdc` (bytes from 0x43) is the unique value in [-32768, 32767]
congruent to 256·hi + lo modulo 65536, negative when hi ≥ 0x80; and on equal
bytes the two functions, one casting through `int16_t` and the other through
`uint16_t`, return equal values. -/
theorem C8_raw_axes_big_endian (s t : Driver)
    (h : ∀ i, i < 6 →
      t.nextByte (MPU6886_GYRO_XOUT_H + i) = s.nextByte (MPU6886_ACCEL_XOUT_H + i)) :
    (DecodesBE16 (s.nextByte 0x3B) (s.nextByte 0x3C) (getAccelAdc s).2.1 ∧
     DecodesBE16 (s.nextByte 0x3D) (s.nextByte 0x3E) (getAccelAdc s).2.2.1 ∧
     DecodesBE16 (s.nextByte 0x3F) (s.nextByte 0x40) (getAccelAdc s).2.2.2) ∧
    (DecodesBE16 (s.nextByte 0x43) (s.nextByte 0x44) (getGyroAdc s).2.1 ∧
     DecodesBE16 (s.nextByte 0x45) (s.nextByte 0x46) (getGyroAdc s).2.2.1 ∧
     DecodesBE16 (s.nextByte 0x47) (s.nextByte 0x48) (getGyroAdc s).2.2.2) ∧
    (getGyroAdc t).2 = (getAccelAdc s).2 := by
  have e := fun a b =>
    decodeI16_eq (s.nextByte a) (s.nextByte b) (nextByte_lt s a) (nextByte_lt s b)
  have e2 := fun a b =>
    decodeU16_eq (s.nextByte a) (s.nextByte b) (nextByte_lt s a) (nextByte_lt s b)
  have d := fun a b =>
    decodesBE16_toInt16 (s.nextByte a) (s.nextByte b) (nextByte_lt s a) (nextByte_lt s b)
  refine ⟨?_, ?_, ?_⟩
  · rw [getAccelAdc_val]
    simp only [e]
    exact ⟨d _ _, d _ _, d _ _⟩
  · rw [getGyroAdc_val]
    simp only [e2]
    exact ⟨d _ _, d _ _, d _ _⟩
  · rw [getAccelAdc_val, getGyroAdc_val]
    have h0 := h 0 (by decide)
    have h1 := h 1 (by decide)
    have h2 := h 2 (by decide)
    have h3 := h 3 (by decide)
    have h4 := h 4 (by decide)
    have h5 := h 5 (by decide)
    simp only [MPU6886_GYRO_XOUT_H, MPU6886_ACCEL_XOUT_H, Nat.reduceAdd] at h0 h1 h2 h3 h4 h5
    rw [h0, h1, h2, h3, h4, h5]
    simp only [e, e2]

/-- Claim C8 on a device whose odd registers read 0xFE and even registers
0x0C: every axis of both blocks reads 0xFE0C, that is -500. -/
theorem C8_raw_axes_big_endian_witness :
    (∀ i, i < 6 →
      (blank fun a => if a % 2 = 1 then 0xFE else 0x0C).nextByte (MPU6886_GYRO_XOUT_H + i)
        = (blank fun a => if a % 2 = 1 then 0xFE else 0x0C).nextByte
            (MPU6886_ACCEL_XOUT_H + i)) ∧
    (getGyroAdc (blank fun a => if a % 2 = 1 then 0xFE else 0x0C)).2
      = (getAccelAdc (blank fun a => if a % 2 = 1 then 0xFE else 0x0C)).2 :=
  ⟨by decide, (C8_raw_axes_big_endian _ _ (by decide)).2.2⟩

/-! ## Gyroscope offsets -/

theorem tdiv_cases (a b : Int) (hb : 0 < b) :
    Int.tdiv a b = if 0 ≤ a then a / b else -((-a) / b) := by
  split
  · next h => exact Int.tdiv_eq_ediv h hb.le
  · next h =>
    have e := Int.neg_tdiv (-a) b
    rw [neg_neg] at e
    rw [e, Int.tdiv_eq_ediv (by omega) hb.le]

theorem tdiv4_bounds (a : Int) (h1 : -32768 ≤ a) (h2 : a ≤ 32767) :
    -8192 ≤ Int.tdiv a 4 ∧ Int.tdiv a 4 ≤ 8191 := by
  rw [tdiv_cases a 4 (by decide)]
  split <;> omega

theorem tdiv2_bounds (a : Int) (h1 : -32768 ≤ a) (h2 : a ≤ 32767) :
    -16384 ≤ Int.tdiv a 2 ∧ Int.tdiv a 2 ≤ 16383 := by
  rw [tdiv_cases a 2 (by decide)]
  split <;> omega

theorem toInt16_id (v : Int) (h1 : -32768 ≤ v) (h2 : v ≤ 32767) : toInt16 v = v := by
  unfold toInt16
  omega

theorem toInt16_range (v : Int) : -32768 ≤ toInt16 v ∧ toInt16 v ≤ 32767 := by
  unfold toInt16
  omega

theorem bytes_isBE16 (v : Int) (h1 : -32768 ≤ v) (h2 : v ≤ 32767) :
    highByte v < 256 ∧ lowByte v < 256 ∧ IsBE16 (highByte v) (lowByte v) v := by
  unfold highByte lowByte IsBE16
  omega

theorem scaleOffset_eq (range : Nat) (offset : Int) (h1 : -32768 ≤ offset)
    (h2 : offset ≤ 32767) :
    scaleOffset range offset = toInt16 (specRangeFactor range offset) := by
  unfold scaleOffset specRangeFactor
  split
  · rfl
  · split
    · rfl
    · split
      · rfl
      · exact (toInt16_id offset h1 h2).symm

theorem specRangeFactor_fits (range : Nat) (offset : Int) (h1 : -32768 ≤ offset)
    (h2 : offset ≤ 32767) :
    toInt16 (specRangeFactor range offset) = specRangeFactor range offset ↔
      ¬ (range = GFS_2000DPS ∧ (offset < -16384 ∨ 16383 < offset)) := by
  unfold specRangeFactor
  have b4 := tdiv4_bounds offset h1 h2
  have b2 := tdiv2_bounds offset h1 h2
  by_cases r0 : range = GFS_250DPS
  · simp only [r0, if_true]
    rw [toInt16_id _ (by omega) (by omega)]
    simp
  · by_cases r1 : range = GFS_500DPS
    · simp only [r1, if_true]
      rw [toInt16_id _ (by omega) (by omega)]
      simp
    · by_cases r3 : range = GFS_2000DPS
      · simp only [r3, if_true]
        simp only [toInt16]
        simp
        omega
      · simp only [if_neg r0, if_neg r1, if_neg r3, toInt16_id offset h1 h2]
        simp [r3]

/-- Claim C6, amended: for every `int16_t` offset and every cached range,
each of the three offset setters issues one write of two bytes, high byte
first, to its register pair (0x13, 0x15, 0x17); the bytes are the big-endian
two's complement of the offset scaled by the range factor (÷4, ÷2, ×1, ×2,
division truncating toward zero) and reduced into `int16_t`; the reduction
changes the value exactly at ±2000 dps for offsets outside [-16384, 16383];
the cached configuration is unchanged. -/
theorem C6_offset_setters (s : Driver) (offset : Int) (h1 : -32768 ≤ offset)
    (h2 : offset ≤ 32767) :
    (∃ hi lo, hi < 256 ∧ lo < 256 ∧
      IsBE16 hi lo (toInt16 (specRangeFactor s.now_gscale offset)) ∧
      busWrites (setGyroXoffset s offset).trace
        = busWrites s.trace ++ [(MPU6886_XG_OFFS_USRH, [hi, lo])] ∧
      busWrites (setGyroYoffset s offset).trace
        = busWrites s.trace ++ [(MPU6886_YG_OFFS_USRH, [hi, lo])] ∧
      busWrites (setGyroZoffset s offset).trace
        = busWrites s.trace ++ [(MPU6886_ZG_OFFS_USRH, [hi, lo])]) ∧
    (toInt16 (specRangeFactor s.now_gscale offset) = specRangeFactor s.now_gscale offset ↔
      ¬ (s.now_gscale = GFS_2000DPS ∧ (offset < -16384 ∨ 16383 < offset))) ∧
    (setGyroXoffset s offset).cache = s.cache ∧
    (setGyroYoffset s offset).cache = s.cache ∧
    (setGyroZoffset s offset).cache = s.cache := by
  have r := toInt16_range (specRangeFactor s.now_gscale offset)
  have b := bytes_isBE16 _ r.1 r.2
  refine ⟨⟨_, _, b.1, b.2.1, b.2.2, ?_, ?_, ?_⟩, specRangeFactor_fits _ _ h1 h2, ?_, ?_, ?_⟩ <;>
    simp [setGyroXoffset, setGyroYoffset, setGyroZoffset, emit, xSemaphoreTake,
      xSemaphoreGive, delay, I2C_Write_NBytes, busWrites_append, busWrites, Driver.cache,
      toInt16_id offset h1 h2, scaleOffset_eq _ _ h1 h2]

/-- Claim C6 on the stationary sensor's driver (±500 dps) with offset -101:
the three pairs receive 0xFFCE = -50. -/
theorem C6_offset_setters_witness :
    ((-32768 : Int) ≤ -101 ∧ (-101 : Int) ≤ 32767) ∧
    (∃ hi lo, hi < 256 ∧ lo < 256 ∧
      IsBE16 hi lo (toInt16 (specRangeFactor stationary.now_gscale (-101))) ∧
      busWrites (setGyroXoffset stationary (-101)).trace
        = busWrites stationary.trace ++ [(MPU6886_XG_OFFS_USRH, [hi, lo])] ∧
      busWrites (setGyroYoffset stationary (-101)).trace
        = busWrites stationary.trace ++ [(MPU6886_YG_OFFS_USRH, [hi, lo])] ∧
      busWrites (setGyroZoffset stationary (-101)).trace
        = busWrites stationary.trace ++ [(MPU6886_ZG_OFFS_USRH, [hi, lo])]) ∧
    busWrites (setGyroXoffset stationary (-101)).trace
      = busWrites stationary.trace ++ [(MPU6886_XG_OFFS_USRH, [0xFF, 0xCE])] :=
  ⟨by decide, (C6_offset_setters stationary (-101) (by decide) (by decide)).1, by decide⟩

/-- Claim C6 as stated fails at ±2000 dps for the offset 20000: the pair is
programmed with 0x9C40, which reads -25536 as a 16-bit two's-complement
value, whereas the offset times two is 40000. -/
theorem C6_offset_setters_counterexample :
    (setGyroFsr initialised GFS_2000DPS).now_gscale = GFS_2000DPS ∧
    busWrites (setGyroXoffset (setGyroFsr initialised GFS_2000DPS) 20000).trace
      = busWrites (setGyroFsr initialised GFS_2000DPS).trace
        ++ [(MPU6886_XG_OFFS_USRH, [0x9C, 0x40])] ∧
    toInt16 (256 * 0x9C + 0x40) = -25536 ∧
    specRangeFactor GFS_2000DPS 20000 = 40000 ∧
    ¬ IsBE16 0x9C 0x40 (specRangeFactor GFS_2000DPS 20000) := by
  refine ⟨by decide, by decide, by decide, by decide, ?_⟩
  unfold IsBE16
  decide

theorem toInt32_id (v : Int) (h1 : -2147483648 ≤ v) (h2 : v ≤ 2147483647) :
    toInt32 v = v := by
  unfold toInt32
  omega

theorem getGyroAdc_fst (s : Driver) :
    (getGyroAdc s).1 =
      { s with
          nreads := s.nreads + 1
          trace := s.trace ++
            [Event.take, Event.busRead MPU6886_ADDRESS MPU6886_GYRO_XOUT_H 6, Event.give] } := by
  simp [getGyroAdc, I2C_Read_NBytes, xSemaphoreTake, xSemaphoreGive, emit]

theorem getGyroAdc_snd (s : Driver) : (getGyroAdc s).2 = gyroSampleAt s s.nreads := rfl

theorem gyroSampleAt_congr (s t : Driver) (k : Nat) (h : t.device = s.device) :
    gyroSampleAt t k = gyroSampleAt s k := by
  simp [gyroSampleAt, getGyroAdc, I2C_Read_NBytes, xSemaphoreTake, xSemaphoreGive, emit, h]

theorem calLoop_const (x y z : Int)
    (hx : -32768 ≤ x ∧ x ≤ 32767) (hy : -32768 ≤ y ∧ y ≤ 32767)
    (hz : -32768 ≤ z ∧ z ≤ 32767) :
    ∀ (n : Nat) (s : Driver) (ax ay az : Int), n ≤ 32 →
      (-(32 - (n : Int)) * 32768 ≤ ax ∧ ax ≤ (32 - (n : Int)) * 32768) →
      (-(32 - (n : Int)) * 32768 ≤ ay ∧ ay ≤ (32 - (n : Int)) * 32768) →
      (-(32 - (n : Int)) * 32768 ≤ az ∧ az ≤ (32 - (n : Int)) * 32768) →
      (∀ k, k < n → gyroSampleAt s (s.nreads + k) = (x, y, z)) →
      (calLoop n s (ax, ay, az)).2 = (ax + n * x, ay + n * y, az + n * z) ∧
      (calLoop n s (ax, ay, az)).1.cache = s.cache ∧
      busWrites (calLoop n s (ax, ay, az)).1.trace = busWrites s.trace := by
  intro n
  induction n with
  | zero =>
    intro s ax ay az _ _ _ _ _
    simp [calLoop]
  | succ n ih =>
    intro s ax ay az hn bx b_y bz hdev
    have h0 := hdev 0 (by omega)
    rw [Nat.add_zero, ← getGyroAdc_snd] at h0
    have hs : getGyroAdc s = ((getGyroAdc s).1, x, y, z) := by
      rw [← h0]
    rw [calLoop, hs]
    simp only []
    push_cast at bx b_y bz
    rw [toInt32_id (ax + x) (by omega) (by omega), toInt32_id (ay + y) (by omega) (by omega),
      toInt32_id (az + z) (by omega) (by omega)]
    have key := ih (delay (getGyroAdc s).1 10) (ax + x) (ay + y) (az + z) (by omega)
      (by omega) (by omega) (by omega)
      (by
        intro k hk
        have := hdev (k + 1) (by omega)
        rw [gyroSampleAt_congr s _ _ (by simp [getGyroAdc_fst, delay, emit])]
        rw [← this]
        congr 1
        simp [getGyroAdc_fst, delay, emit]
        omega)
    refine ⟨?_, ?_, ?_⟩
    · rw [key.1]
      push_cast
      ext <;> simp <;> ring
    · rw [key.2.1]
      simp [getGyroAdc_fst, delay, emit, Driver.cache]
    · rw [key.2.2]
      simp [getGyroAdc_fst, delay, emit, busWrites_append, busWrites]

theorem setGyroXoffset_writes (s : Driver) (offset : Int) :
    busWrites (setGyroXoffset s offset).trace = busWrites s.trace ++
      [(MPU6886_XG_OFFS_USRH, [highByte (scaleOffset s.now_gscale (toInt16 offset)),
        lowByte (scaleOffset s.now_gscale (toInt16 offset))])] ∧
    (setGyroXoffset s offset).cache = s.cache := by
  constructor <;>
  simp [setGyroXoffset, emit, xSemaphoreTake, xSemaphoreGive, delay, I2C_Write_NBytes,
    busWrites_append, busWrites, Driver.cache]

theorem setGyroYoffset_writes (s : Driver) (offset : Int) :
    busWrites (setGyroYoffset s offset).trace = busWrites s.trace ++
      [(MPU6886_YG_OFFS_USRH, [highByte (scaleOffset s.now_gscale (toInt16 offset)),
        lowByte (scaleOffset s.now_gscale (toInt16 offset))])] ∧
    (setGyroYoffset s offset).cache = s.cache := by
  constructor <;>
  simp [setGyroYoffset, emit, xSemaphoreTake, xSemaphoreGive, delay, I2C_Write_NBytes,
    busWrites_append, busWrites, Driver.cache]

theorem setGyroZoffset_writes (s : Driver) (offset : Int) :
    busWrites (setGyroZoffset s offset).trace = busWrites s.trace ++
      [(MPU6886_ZG_OFFS_USRH, [highByte (scaleOffset s.now_gscale (toInt16 offset)),
        lowByte (scaleOffset s.now_gscale (toInt16 offset))])] ∧
    (setGyroZoffset s offset).cache = s.cache := by
  constructor <;>
  simp [setGyroZoffset, emit, xSemaphoreTake, xSemaphoreGive, delay, I2C_Write_NBytes,
    busWrites_append, busWrites, Driver.cache]

theorem cache_gscale (s t : Driver) (h : s.cache = t.cache) : s.now_gscale = t.now_gscale :=
  congrArg (fun c => c.2.1) h

theorem decodeU16_range (hi lo : Nat) :
    -32768 ≤ decodeU16 hi lo ∧ decodeU16 hi lo ≤ 32767 := toInt16_range _

theorem neg_avg (x : Int) (h1 : -32768 ≤ x) (h2 : x ≤ 32767) :
    Int.tdiv (toInt32 (-(0 + ((32 : Nat) : Int) * x))) MPU6886_CAL_AVG_TIMES = -x := by
  rw [toInt32_id _ (by push_cast; omega) (by push_cast; omega)]
  have e : -(0 + ((32 : Nat) : Int) * x) = ((MPU6886_CAL_AVG_TIMES : Nat) : Int) * (-x) := by
    push_cast
    ring
  rw [e]
  exact Int.mul_tdiv_cancel_left _ (by decide)

theorem sample_range (s : Driver) (x y z : Int) (h : gyroSampleAt s s.nreads = (x, y, z)) :
    (-32768 ≤ x ∧ x ≤ 32767) ∧ (-32768 ≤ y ∧ y ≤ 32767) ∧ (-32768 ≤ z ∧ z ≤ 32767) := by
  rw [← getGyroAdc_snd, getGyroAdc_val] at h
  have rx := decodeU16_range (s.nextByte 0x43) (s.nextByte 0x44)
  have ry := decodeU16_range (s.nextByte 0x45) (s.nextByte 0x46)
  have rz := decodeU16_range (s.nextByte 0x47) (s.nextByte 0x48)
  have ex : decodeU16 (s.nextByte 0x43) (s.nextByte 0x44) = x := congrArg (fun p => p.1) h
  have ey : decodeU16 (s.nextByte 0x45) (s.nextByte 0x46) = y := congrArg (fun p => p.2.1) h
  have ez : decodeU16 (s.nextByte 0x47) (s.nextByte 0x48) = z := congrArg (fun p => p.2.2) h
  rw [ex] at rx
  rw [ey] at ry
  rw [ez] at rz
  exact ⟨rx, ry, rz⟩

/-- On a device that returns the sample (x, y, z) during 32 read
transactions, `gyro_zero_cal` issues exactly the three offset writes of
`setGyroXoffset (-x)`, `setGyroYoffset (-y)`, `setGyroZoffset (-z)`. -/
theorem gyro_zero_cal_writes (s : Driver) (x y z : Int)
    (hdev : ∀ k, k < 32 → gyroSampleAt s (s.nreads + k) = (x, y, z)) :
    busWrites (gyro_zero_cal s).trace = busWrites s.trace ++
      [(MPU6886_XG_OFFS_USRH, [highByte (scaleOffset s.now_gscale (toInt16 (-x))),
          lowByte (scaleOffset s.now_gscale (toInt16 (-x)))]),
       (MPU6886_YG_OFFS_USRH, [highByte (scaleOffset s.now_gscale (toInt16 (-y))),
          lowByte (scaleOffset s.now_gscale (toInt16 (-y)))]),
       (MPU6886_ZG_OFFS_USRH, [highByte (scaleOffset s.now_gscale (toInt16 (-z))),
          lowByte (scaleOffset s.now_gscale (toInt16 (-z)))])] := by
  obtain ⟨rx, ry, rz⟩ := sample_range s x y z (hdev 0 (by decide))
  obtain ⟨hv, hc, hw⟩ := calLoop_const x y z rx ry rz 32 s 0 0 0 (by decide)
    (by constructor <;> norm_num) (by constructor <;> norm_num)
    (by constructor <;> norm_num) hdev
  have hcal : calLoop MPU6886_CAL_AVG_TIMES s (0, 0, 0) =
      ((calLoop 32 s (0, 0, 0)).1, 0 + ((32 : Nat) : Int) * x, 0 + ((32 : Nat) : Int) * y,
        0 + ((32 : Nat) : Int) * z) := by
    rw [← hv]
  have g1 := cache_gscale _ _ hc
  have X := setGyroXoffset_writes (calLoop 32 s (0, 0, 0)).1 (-x)
  have g2 := cache_gscale _ _ X.2
  have Y := setGyroYoffset_writes (setGyroXoffset (calLoop 32 s (0, 0, 0)).1 (-x)) (-y)
  have g3 := cache_gscale _ _ Y.2
  have Z := setGyroZoffset_writes
    (setGyroYoffset (setGyroXoffset (calLoop 32 s (0, 0, 0)).1 (-x)) (-y)) (-z)
  unfold gyro_zero_cal
  rw [hcal]
  simp only []
  rw [neg_avg x rx.1 rx.2, neg_avg y ry.1 ry.2, neg_avg z rz.1 rz.2]
  rw [Z.1, Y.1, X.1, hw, g3, g2, g1]
  simp

/-- Claim C5, amended: when the device returns the same gyroscope sample
(x, y, z) during the 32 read transactions and no component is -32768,
`gyro_zero_cal` issues exactly three register writes, one per axis pair
(0x13, 0x15, 0x17), each the big-endian two's complement of the negated
sample scaled by the range factor and reduced into `int16_t`; the reduction
changes the value exactly at ±2000 dps when the negated sample is outside
[-16384, 16383]. -/
theorem C5_gyro_zero_cal (s : Driver) (x y z : Int)
    (hdev : ∀ k, k < 32 → gyroSampleAt s (s.nreads + k) = (x, y, z))
    (hx : x ≠ -32768) (hy : y ≠ -32768) (hz : z ≠ -32768) :
    (∃ xh xl yh yl zh zl,
      (xh < 256 ∧ xl < 256 ∧ yh < 256 ∧ yl < 256 ∧ zh < 256 ∧ zl < 256) ∧
      busWrites (gyro_zero_cal s).trace = busWrites s.trace ++
        [(MPU6886_XG_OFFS_USRH, [xh, xl]), (MPU6886_YG_OFFS_USRH, [yh, yl]),
         (MPU6886_ZG_OFFS_USRH, [zh, zl])] ∧
      IsBE16 xh xl (toInt16 (specRangeFactor s.now_gscale (-x))) ∧
      IsBE16 yh yl (toInt16 (specRangeFactor s.now_gscale (-y))) ∧
      IsBE16 zh zl (toInt16 (specRangeFactor s.now_gscale (-z)))) ∧
    (toInt16 (specRangeFactor s.now_gscale (-x)) = specRangeFactor s.now_gscale (-x) ↔
      ¬ (s.now_gscale = GFS_2000DPS ∧ (-x < -16384 ∨ 16383 < -x))) ∧
    (toInt16 (specRangeFactor s.now_gscale (-y)) = specRangeFactor s.now_gscale (-y) ↔
      ¬ (s.now_gscale = GFS_2000DPS ∧ (-y < -16384 ∨ 16383 < -y))) ∧
    (toInt16 (specRangeFactor s.now_gscale (-z)) = specRangeFactor s.now_gscale (-z) ↔
      ¬ (s.now_gscale = GFS_2000DPS ∧ (-z < -16384 ∨ 16383 < -z))) := by
  obtain ⟨rx, ry, rz⟩ := sample_range s x y z (hdev 0 (by decide))
  have nx : -32768 ≤ -x ∧ -x ≤ 32767 := by omega
  have ny : -32768 ≤ -y ∧ -y ≤ 32767 := by omega
  have nz : -32768 ≤ -z ∧ -z ≤ 32767 := by omega
  have bx := bytes_isBE16 _ (toInt16_range (specRangeFactor s.now_gscale (-x))).1
    (toInt16_range (specRangeFactor s.now_gscale (-x))).2
  have b_y := bytes_isBE16 _ (toInt16_range (specRangeFactor s.now_gscale (-y))).1
    (toInt16_range (specRangeFactor s.now_gscale (-y))).2
  have bz := bytes_isBE16 _ (toInt16_range (specRangeFactor s.now_gscale (-z))).1
    (toInt16_range (specRangeFactor s.now_gscale (-z))).2
  refine ⟨⟨_, _, _, _, _, _, ⟨bx.1, bx.2.1, b_y.1, b_y.2.1, bz.1, bz.2.1⟩, ?_,
    bx.2.2, b_y.2.2, bz.2.2⟩,
    specRangeFactor_fits _ _ nx.1 nx.2, specRangeFactor_fits _ _ ny.1 ny.2,
    specRangeFactor_fits _ _ nz.1 nz.2⟩
  rw [gyro_zero_cal_writes s x y z hdev, toInt16_id _ nx.1 nx.2, toInt16_id _ ny.1 ny.2,
    toInt16_id _ nz.1 nz.2, scaleOffset_eq _ _ nx.1 nx.2, scaleOffset_eq _ _ ny.1 ny.2,
    scaleOffset_eq _ _ nz.1 nz.2]

theorem gyroSampleAt_blank (dev : Nat → Nat) (k : Nat) :
    gyroSampleAt (blank dev) k =
      (decodeU16 (dev 0x43 % 256) (dev 0x44 % 256), decodeU16 (dev 0x45 % 256) (dev 0x46 % 256),
        decodeU16 (dev 0x47 % 256) (dev 0x48 % 256)) := by
  simp [gyroSampleAt, getGyroAdc_val, Driver.nextByte, blank]

theorem stationary_samples (k : Nat) : gyroSampleAt stationary k = (100, -50, 30) := by
  rw [gyroSampleAt_congr (blank stationaryDevice) stationary k rfl, gyroSampleAt_blank]
  decide

theorem minAt250_samples (k : Nat) : gyroSampleAt minAt250 k = (-32768, 0, 0) := by
  rw [gyroSampleAt_congr (blank minDevice) minAt250 k rfl, gyroSampleAt_blank]
  decide

/-- Claim C5 on the stationary sensor reading (100, -50, 30) at ±500 dps: the
programmed offsets are (-50, 25, -15), the halves of (-100, 50, -30). -/
theorem C5_gyro_zero_cal_witness :
    ((∀ k, k < 32 → gyroSampleAt stationary (stationary.nreads + k) = (100, -50, 30)) ∧
      (100 : Int) ≠ -32768 ∧ (-50 : Int) ≠ -32768 ∧ (30 : Int) ≠ -32768) ∧
    (∃ xh xl yh yl zh zl,
      (xh < 256 ∧ xl < 256 ∧ yh < 256 ∧ yl < 256 ∧ zh < 256 ∧ zl < 256) ∧
      busWrites (gyro_zero_cal stationary).trace = busWrites stationary.trace ++
        [(MPU6886_XG_OFFS_USRH, [xh, xl]), (MPU6886_YG_OFFS_USRH, [yh, yl]),
         (MPU6886_ZG_OFFS_USRH, [zh, zl])] ∧
      IsBE16 xh xl (toInt16 (specRangeFactor stationary.now_gscale (-100))) ∧
      IsBE16 yh yl (toInt16 (specRangeFactor stationary.now_gscale (- -50))) ∧
      IsBE16 zh zl (toInt16 (specRangeFactor stationary.now_gscale (-30)))) ∧
    busWrites (gyro_zero_cal stationary).trace = busWrites stationary.trace ++
      [(MPU6886_XG_OFFS_USRH, [0xFF, 0xCE]), (MPU6886_YG_OFFS_USRH, [0x00, 0x19]),
       (MPU6886_ZG_OFFS_USRH, [0xFF, 0xF1])] := by
  refine ⟨⟨fun k _ => stationary_samples _, by decide, by decide, by decide⟩,
    (C5_gyro_zero_cal stationary 100 (-50) 30 (fun k _ => stationary_samples _)
      (by decide) (by decide) (by decide)).1, ?_⟩
  have g : stationary.now_gscale = GFS_500DPS := by decide
  rw [gyro_zero_cal_writes stationary 100 (-50) 30 (fun k _ => stationary_samples _), g]
  decide

/-- Claim C5 as stated fails for a sample of -32768: at ±250 dps the X offset
pair is programmed with 0xE000 = -8192, whereas the negated sample divided by
four is 8192. -/
theorem C5_gyro_zero_cal_counterexample :
    (∀ k, k < 32 → gyroSampleAt minAt250 (minAt250.nreads + k) = (-32768, 0, 0)) ∧
    minAt250.now_gscale = GFS_250DPS ∧
    busWrites (gyro_zero_cal minAt250).trace = busWrites minAt250.trace ++
      [(MPU6886_XG_OFFS_USRH, [0xE0, 0x00]), (MPU6886_YG_OFFS_USRH, [0x00, 0x00]),
       (MPU6886_ZG_OFFS_USRH, [0x00, 0x00])] ∧
    specRangeFactor GFS_250DPS (-(-32768)) = 8192 ∧
    ¬ IsBE16 0xE0 0x00 (specRangeFactor GFS_250DPS (-(-32768))) := by
  have g : minAt250.now_gscale = GFS_250DPS := by decide
  refine ⟨fun k _ => minAt250_samples _, g, ?_, by decide, ?_⟩
  · rw [gyro_zero_cal_writes minAt250 (-32768) 0 0 (fun k _ => minAt250_samples _), g]
    decide
  · unfold IsBE16
    decide

/-! ## Resolutions -/

theorem getAres_aRes (s : Driver) : (getAres s).aRes = aresOf s.now_ascale := by
  simp [getAres, emit]

theorem getGres_gRes (s : Driver) : (getGres s).gRes = (gresOf s.now_gscale).1 := by
  simp [getGres, emit]

theorem getGres_gRadRes (s : Driver) : (getGres s).gRadRes = (gresOf s.now_gscale).2 := by
  simp [getGres, emit]

theorem fresh_of_eq (s t : Driver) (h1 : t.now_ascale = s.now_ascale)
    (h2 : t.now_gscale = s.now_gscale) (h3 : t.aRes = s.aRes) (h4 : t.gRes = s.gRes)
    (h5 : t.gRadRes = s.gRadRes) (h : Fresh s) : Fresh t := by
  unfold Fresh at *
  rw [h1, h2, h3, h4, h5]
  exact h

theorem fresh_of_cache (s t : Driver) (hc : t.cache = s.cache) (h : Fresh s) : Fresh t := by
  simp only [Driver.cache, Prod.mk.injEq] at hc
  exact fresh_of_eq s t hc.1 hc.2.1 hc.2.2.2.2.2.1 hc.2.2.2.2.2.2.1 hc.2.2.2.2.2.2.2 h

theorem calLoop_cache : ∀ (n : Nat) (s : Driver) (avg : Int × Int × Int),
    (calLoop n s avg).1.cache = s.cache := by
  intro n
  induction n with
  | zero => intro s avg; rfl
  | succ n ih =>
    intro s avg
    obtain ⟨ax, ay, az⟩ := avg
    rw [calLoop]
    simp only []
    rw [ih]
    simp [getGyroAdc_fst, delay, emit, Driver.cache]

theorem gyro_zero_cal_cache (s : Driver) : (gyro_zero_cal s).cache = s.cache := by
  unfold gyro_zero_cal
  simp only []
  rw [(setGyroZoffset_writes _ _).2, (setGyroYoffset_writes _ _).2,
    (setGyroXoffset_writes _ _).2, calLoop_cache]

theorem init_cases (s : Driver) (sda scl wire : Nat) :
    ((init s sda scl wire).2 = false ∧ (init s sda scl wire).1.cache = s.cache) ∨
    ((init s sda scl wire).2 = true ∧ Fresh (init s sda scl wire).1 ∧
      (init s sda scl wire).1.now_ascale = AFS_2G ∧
      (init s sda scl wire).1.now_gscale = GFS_500DPS) := by
  unfold init
  simp only []
  split_ifs <;>
    simp [Fresh, Driver.cache, getAres, getGres, emit, delay, I2C_Write_NBytes,
      I2C_Read_NBytes, xSemaphoreGive, xSemaphoreTake]

theorem init_fresh (s : Driver) (sda scl wire : Nat) (h : (init s sda scl wire).2 = true) :
    Fresh (init s sda scl wire).1 ∧ (init s sda scl wire).1.now_ascale = AFS_2G ∧
      (init s sda scl wire).1.now_gscale = GFS_500DPS := by
  rcases init_cases s sda scl wire with ⟨hf, _⟩ | ⟨_, hr⟩
  · rw [h] at hf
    cases hf
  · exact hr

theorem init_preserves (s : Driver) (sda scl wire : Nat) (h : Fresh s) :
    Fresh (init s sda scl wire).1 := by
  rcases init_cases s sda scl wire with ⟨_, hc⟩ | ⟨_, hr, _⟩
  · exact fresh_of_cache s _ hc h
  · exact hr

theorem step_fresh (s : Driver) (op : Op) (h : Fresh s) : Fresh (step s op) := by
  cases op with
  | init sda scl wire => exact init_preserves s sda scl wire h
  | gyro_zero_cal => exact fresh_of_cache s _ (gyro_zero_cal_cache s) h
  | setGyroFsr scale =>
    simp only [step, setGyroFsr]
    split
    · exact h
    · unfold Fresh at *
      by_cases h8 : s.now_gfilter = GNFIL_3281
      · simp [getGres, emit, xSemaphoreTake, xSemaphoreGive, delay, I2C_Write_NBytes, h8, h.1]
      · by_cases h9 : s.now_gfilter = GNFIL_8173
        · simp [getGres, emit, xSemaphoreTake, xSemaphoreGive, delay, I2C_Write_NBytes, h9,
            h.1]
        · simp [getGres, emit, xSemaphoreTake, xSemaphoreGive, delay, I2C_Write_NBytes, h8,
            h9, h.1]
  | setAccelFsr scale =>
    simp only [step, setAccelFsr]
    split
    · exact h
    · unfold Fresh at *
      simp [getAres, emit, xSemaphoreTake, xSemaphoreGive, delay, I2C_Write_NBytes, h.2]
  | setGyroFilter filter =>
    refine fresh_of_eq s _ ?_ ?_ ?_ ?_ ?_ h <;>
      simp [step, setGyroFilter, emit, xSemaphoreTake, xSemaphoreGive, delay, I2C_Write_NBytes]
  | setAccelFilter filter =>
    refine fresh_of_eq s _ ?_ ?_ ?_ ?_ ?_ h <;>
      simp [step, setAccelFilter, emit, xSemaphoreTake, xSemaphoreGive, delay,
        I2C_Write_NBytes]
  | getGyroData r =>
    cases r <;>
    refine fresh_of_eq s _ ?_ ?_ ?_ ?_ ?_ h <;>
      simp [step, getGyroData, getGyroAdc, I2C_Read_NBytes, emit, xSemaphoreTake,
        xSemaphoreGive]
  | _ =>
    refine fresh_of_eq s _ ?_ ?_ ?_ ?_ ?_ h <;>
      simp [step, getAccelAdc, getGyroAdc, getTempAdc, getAllAdc, getAllAdc_u8, getAccelData,
        getTempData, setSampleDivider, startFifo, getFifoSize, getFifo, stopFifo,
        setGyroXoffset, setGyroYoffset, setGyroZoffset, I2C_Read_NBytes, I2C_Write_NBytes,
        emit, xSemaphoreTake, xSemaphoreGive, delay]

theorem run_fresh (ops : List Op) : ∀ s : Driver, Fresh s → Fresh (run s ops) := by
  induction ops with
  | nil => intro s h; exact h
  | cons op ops ih =>
    intro s h
    exact ih (step s op) (step_fresh s op h)

/-- Claim C9: right after a successful `init` the cached ranges are ±2g and
±500 dps with their resolutions (the radian one as the binary32 value
1143819/2^32), and in every state reached from there by
any sequence of public calls, with any arguments, `aRes` is the value
`getAres` computes for the cached `now_ascale`, and `gRes`, `gRadRes` are the
values `getGres` computes for the cached `now_gscale`. -/
theorem C9_resolutions_never_stale (s0 : Driver) (sda scl wire : Nat) (ops : List Op)
    (hinit : (init s0 sda scl wire).2 = true) :
    ((init s0 sda scl wire).1.now_ascale = AFS_2G ∧
      (init s0 sda scl wire).1.now_gscale = GFS_500DPS ∧
      (init s0 sda scl wire).1.aRes = 2 / 32768 ∧
      (init s0 sda scl wire).1.gRes = 500 / 32768 ∧
      (init s0 sda scl wire).1.gRadRes = 1143819 / 4294967296) ∧
    (run (init s0 sda scl wire).1 ops).aRes
      = (getAres (run (init s0 sda scl wire).1 ops)).aRes ∧
    (run (init s0 sda scl wire).1 ops).gRes
      = (getGres (run (init s0 sda scl wire).1 ops)).gRes ∧
    (run (init s0 sda scl wire).1 ops).gRadRes
      = (getGres (run (init s0 sda scl wire).1 ops)).gRadRes := by
  obtain ⟨hf, ha, hg⟩ := init_fresh s0 sda scl wire hinit
  have hr := run_fresh ops _ hf
  rw [getAres_aRes, getGres_gRes, getGres_gRadRes]
  refine ⟨⟨ha, hg, ?_, ?_, ?_⟩, hr⟩
  · rw [hf.1, ha]; norm_num [aresOf]
  · rw [hf.2.1, hg, gresOf_values.2.1]
  · rw [hf.2.2, hg, gresOf_values.2.1]

/-- Claim C9 after a successful `init` followed by six calls, two of them
with arguments outside the enumerations and one a second `init`. -/
theorem C9_resolutions_never_stale_witness :
    (init (blank fun _ => 0x19) 21 22 1).2 = true ∧
    (run (init (blank fun _ => 0x19) 21 22 1).1
        [Op.setGyroFilter 10, Op.setAccelFsr 7, Op.setGyroFsr 3, Op.gyro_zero_cal,
          Op.init 21 22 0, Op.setAccelFsr 2]).gRadRes
      = (getGres (run (init (blank fun _ => 0x19) 21 22 1).1
        [Op.setGyroFilter 10, Op.setAccelFsr 7, Op.setGyroFsr 3, Op.gyro_zero_cal,
          Op.init 21 22 0, Op.setAccelFsr 2])).gRadRes :=
  ⟨by decide, (C9_resolutions_never_stale (blank fun _ => 0x19) 21 22 1 _ (by decide)).2.2.2⟩

theorem getAccelData_val (s : Driver) :
    (getAccelData s).2 =
      (((getAccelAdc s).2.1 : ℚ) * s.aRes, ((getAccelAdc s).2.2.1 : ℚ) * s.aRes,
        ((getAccelAdc s).2.2.2 : ℚ) * s.aRes) := by
  simp [getAccelData, getAccelAdc, I2C_Read_NBytes, emit, xSemaphoreTake, xSemaphoreGive]

/-- Claim C10: `getAres` computes 2/32768, 4/32768, 8/32768 and 16/32768 for
the four accelerometer ranges; `getAccelData` returns each raw axis value
times the cached `aRes`; a raw value of 16384 at ±4g is exactly 2 g, also
end to end on a device whose X registers read 0x4000 after
`setAccelFsr AFS_4G`. -/
theorem C10_accel_resolution (s : Driver) :
    ((getAres { s with now_ascale := AFS_2G }).aRes = 2 / 32768 ∧
      (getAres { s with now_ascale := AFS_4G }).aRes = 4 / 32768 ∧
      (getAres { s with now_ascale := AFS_8G }).aRes = 8 / 32768 ∧
      (getAres { s with now_ascale := AFS_16G }).aRes = 16 / 32768) ∧
    (getAccelData s).2 =
      (((getAccelAdc s).2.1 : ℚ) * s.aRes, ((getAccelAdc s).2.2.1 : ℚ) * s.aRes,
        ((getAccelAdc s).2.2.2 : ℚ) * s.aRes) ∧
    (16384 : ℚ) * (getAres { s with now_ascale := AFS_4G }).aRes = 2 ∧
    (getAccelAdc (setAccelFsr (blank fun a => if a = 0x3B then 0x40 else 0) AFS_4G)).2.1
      = 16384 ∧
    (getAccelData (setAccelFsr (blank fun a => if a = 0x3B then 0x40 else 0) AFS_4G)).2.1
      = 2 := by
  refine ⟨⟨?_, ?_, ?_, ?_⟩, getAccelData_val s, ?_, by decide, ?_⟩
  · rw [getAres_aRes]; norm_num [aresOf]
  · rw [getAres_aRes]; norm_num [aresOf]
  · rw [getAres_aRes]; norm_num [aresOf]
  · rw [getAres_aRes]; norm_num [aresOf]
  · rw [getAres_aRes]; norm_num [aresOf]
  · rw [getAccelData_val]
    have e : (getAccelAdc (setAccelFsr (blank fun a => if a = 0x3B then 0x40 else 0)
        AFS_4G)).2.1 = 16384 := by decide
    have r : (setAccelFsr (blank fun a => if a = 0x3B then 0x40 else 0) AFS_4G).aRes
        = aresOf AFS_4G := by
      have hg : ¬ enumGt AFS_4G AFS_16G := range_guard_neg AFS_4G (by decide)
      simp only [setAccelFsr, if_neg hg]
      simp [getAres, emit, xSemaphoreTake, xSemaphoreGive, delay, I2C_Write_NBytes]
    simp only [e, r]
    norm_num [aresOf]

/-! ## Gyroscope resolution -/

theorem init_result (s : Driver) (sda scl wire : Nat) :
    (init s sda scl wire).2 = decide (s.nextByte MPU6886_WHOAMI = 0x19) := by
  unfold init
  simp only []
  split_ifs <;>
    simp_all [Driver.nextByte, emit, I2C_Read_NBytes, xSemaphoreTake]

theorem init_failure (s : Driver) (sda scl wire : Nat) (h : (init s sda scl wire).2 = false) :
    (init s sda scl wire).1.trace = s.trace ++
      [Event.take, Event.busBegin sda scl 400000,
        Event.busRead MPU6886_ADDRESS MPU6886_WHOAMI 1, Event.give] ∧
    (init s sda scl wire).1.written = s.written ∧
    (init s sda scl wire).1.cache = s.cache := by
  unfold init at h ⊢
  simp only [] at h ⊢
  split_ifs at h ⊢ <;>
    simp_all [Driver.cache, emit, I2C_Read_NBytes, xSemaphoreTake, xSemaphoreGive]

/-- Claim C12: `init` returns true exactly when the byte the device returns
for the identity register 0x75 is 0x19; when it returns false its events are
take, bus begin, the identity read and give, so that no register write was
issued, and the written registers and the cached configuration are those of
before the call. -/
theorem C12_init_identity (s t : Driver) (sda scl wire : Nat)
    (hfail : (init t sda scl wire).2 = false) :
    ((init s sda scl wire).2 = true ↔ s.nextByte MPU6886_WHOAMI = 0x19) ∧
    (init t sda scl wire).1.trace = t.trace ++
      [Event.take, Event.busBegin sda scl 400000,
        Event.busRead MPU6886_ADDRESS MPU6886_WHOAMI 1, Event.give] ∧
    busWrites (init t sda scl wire).1.trace = busWrites t.trace ∧
    (init t sda scl wire).1.written = t.written ∧
    (init t sda scl wire).1.cache = t.cache := by
  obtain ⟨ht, hw, hc⟩ := init_failure t sda scl wire hfail
  refine ⟨by rw [init_result]; simp, ht, ?_, hw, hc⟩
  rw [ht, busWrites_append]
  simp [busWrites]

/-- Claim C12 on a device whose identity register reads 0x00. -/
theorem C12_init_identity_witness :
    (init (blank fun _ => 0) 21 22 1).2 = false ∧
    busWrites (init (blank fun _ => 0) 21 22 1).1.trace = busWrites (blank fun _ => 0).trace ∧
    (init (blank fun _ => 0) 21 22 1).1.cache = (blank fun _ => 0).cache :=
  ⟨by decide,
    (C12_init_identity initialised (blank fun _ => 0) 21 22 1 (by decide)).2.2.1,
    (C12_init_identity initialised (blank fun _ => 0) 21 22 1 (by decide)).2.2.2.2⟩

theorem storeBytes_one (w : Nat → Option Nat) (r b a : Nat) :
    storeBytes w r [b] a = if a = r then some b else w a := by
  simp only [storeBytes, List.length_singleton]
  by_cases h : a = r
  · subst h
    simp
  · rw [if_neg h, if_neg (by omega)]

theorem init_success (s s1 : Driver) (sda scl wire : Nat)
    (h : init s sda scl wire = (s1, true)) :
    (s1.written MPU6886_ACCEL_CONFIG = some 0x00 ∧
      s1.written MPU6886_GYRO_CONFIG = some 0x08 ∧
      s1.written MPU6886_CONFIG = some 0x41 ∧
      s1.written MPU6886_SMPLRT_DIV = some 0x00 ∧
      s1.written MPU6886_ACCEL_CONFIG2 = some 0x00) ∧
    (s1.now_ascale = AFS_2G ∧ s1.now_gscale = GFS_500DPS ∧ s1.now_gfilter = GFIL_176 ∧
      s1.now_sample_divider = 0 ∧ s1.now_afilter = AFIL_218) := by
  have h1 : s1 = (init s sda scl wire).1 := by rw [h]
  have h2 : (init s sda scl wire).2 = true := by rw [h]
  subst h1
  clear h
  unfold init at h2 ⊢
  simp only [] at h2 ⊢
  split_ifs at h2 ⊢
  all_goals try simp at h2
  all_goals simp [getAres, getGres, emit, delay, xSemaphoreGive, I2C_Write_NBytes,
    storeBytes_one]

/-- Claim C13: when `init` succeeds, the bytes last written are
ACCEL_CONFIG = 0x00, GYRO_CONFIG = 0x08, CONFIG = 0x41, SMPLRT_DIV = 0x00 and
ACCEL_CONFIG2 = 0x00, the cache holds AFS_2G, GFS_500DPS, GFIL_176, divider 0
and AFIL_218, and on that state `setAccelFsr`, `setGyroFsr`, `setGyroFilter`,
`setSampleDivider` and `setAccelFilter` write the same bytes for these
arguments. -/
theorem C13_init_defaults (s s1 : Driver) (sda scl wire : Nat)
    (h : init s sda scl wire = (s1, true)) :
    (s1.written MPU6886_ACCEL_CONFIG = some 0x00 ∧
      s1.written MPU6886_GYRO_CONFIG = some 0x08 ∧
      s1.written MPU6886_CONFIG = some 0x41 ∧
      s1.written MPU6886_SMPLRT_DIV = some 0x00 ∧
      s1.written MPU6886_ACCEL_CONFIG2 = some 0x00) ∧
    (s1.now_ascale = AFS_2G ∧ s1.now_gscale = GFS_500DPS ∧ s1.now_gfilter = GFIL_176 ∧
      s1.now_sample_divider = 0 ∧ s1.now_afilter = AFIL_218) ∧
    (busWrites (setAccelFsr s1 AFS_2G).trace
        = busWrites s1.trace ++ [(MPU6886_ACCEL_CONFIG, [0x00])] ∧
      busWrites (setGyroFsr s1 GFS_500DPS).trace
        = busWrites s1.trace ++ [(MPU6886_GYRO_CONFIG, [0x08])] ∧
      busWrites (setGyroFilter s1 GFIL_176).trace
        = busWrites s1.trace ++ [(MPU6886_CONFIG, [0x41]), (MPU6886_GYRO_CONFIG, [0x08])] ∧
      busWrites (setSampleDivider s1 0).trace
        = busWrites s1.trace ++ [(MPU6886_SMPLRT_DIV, [0x00])] ∧
      busWrites (setAccelFilter s1 AFIL_218).trace
        = busWrites s1.trace ++ [(MPU6886_ACCEL_CONFIG2, [0x00])]) := by
  obtain ⟨hw, hc⟩ := init_success s s1 sda scl wire h
  refine ⟨hw, hc, ?_, ?_, ?_, ?_, ?_⟩
  · have hg : ¬ enumGt AFS_2G AFS_16G := range_guard_neg AFS_2G (by decide)
    simp only [setAccelFsr, if_neg hg]
    simp [getAres, emit, xSemaphoreTake, xSemaphoreGive, delay, I2C_Write_NBytes,
      busWrites_append, busWrites, toUInt8]
  · have hg : ¬ enumGt GFS_500DPS GFS_2000DPS := range_guard_neg GFS_500DPS (by decide)
    simp only [setGyroFsr, if_neg hg]
    simp [getGres, emit, xSemaphoreTake, xSemaphoreGive, delay, I2C_Write_NBytes,
      busWrites_append, busWrites, toUInt8, hc.2.2.1, GFS_500DPS]
  · simp [setGyroFilter, emit, xSemaphoreTake, xSemaphoreGive, delay, I2C_Write_NBytes,
      busWrites_append, busWrites, toUInt8, hc.2.1, GFS_500DPS, GFIL_176]
  · simp [setSampleDivider, emit, xSemaphoreTake, xSemaphoreGive, delay, I2C_Write_NBytes,
      busWrites_append, busWrites, toUInt8]
  · simp [setAccelFilter, emit, xSemaphoreTake, xSemaphoreGive, delay, I2C_Write_NBytes,
      busWrites_append, busWrites, toUInt8]

/-- Claim C13 on the device that answers every read with 0x19. -/
theorem C13_init_defaults_witness :
    init (blank fun _ => 0x19) 21 22 1 = (initialised, true) ∧
    (initialised.written MPU6886_ACCEL_CONFIG = some 0x00 ∧
      initialised.written MPU6886_GYRO_CONFIG = some 0x08 ∧
      initialised.written MPU6886_CONFIG = some 0x41 ∧
      initialised.written MPU6886_SMPLRT_DIV = some 0x00 ∧
      initialised.written MPU6886_ACCEL_CONFIG2 = some 0x00) :=
  ⟨rfl, (C13_init_defaults (blank fun _ => 0x19) initialised 21 22 1 rfl).1⟩

/-! ## Mutex discipline -/

theorem guarded_append (p : Event → Bool) : ∀ (a b : List Event) (held : Bool),
    guarded p held (a ++ b) = (guarded p held a).bind fun h => guarded p h b := by
  intro a
  induction a with
  | nil => intro b held; rfl
  | cons e es ih =>
    intro b held
    cases e <;> cases held <;> simp [guarded, ih] <;> (split <;> simp)

theorem calLoop_guarded (p : Event → Bool)
    (hd : ∀ ms, p (Event.delay ms) = false) :
    ∀ (n : Nat) (s : Driver) (avg : Int × Int × Int),
      guarded p false s.trace = some false →
      guarded p false (calLoop n s avg).1.trace = some false := by
  intro n
  induction n with
  | zero => intro s avg h; exact h
  | succ n ih =>
    intro s avg h
    obtain ⟨ax, ay, az⟩ := avg
    rw [calLoop]
    simp only []
    apply ih
    simp [getGyroAdc_fst, delay, emit, guarded_append, h, guarded, hd]

theorem offsets_guarded (p : Event → Bool) (hd : ∀ ms, p (Event.delay ms) = false)
    (hc : ∀ f, p (Event.cfgRd f) = false) (s : Driver) (offset : Int)
    (h : guarded p false s.trace = some false) :
    guarded p false (setGyroXoffset s offset).trace = some false ∧
    guarded p false (setGyroYoffset s offset).trace = some false ∧
    guarded p false (setGyroZoffset s offset).trace = some false := by
  simp [setGyroXoffset, setGyroYoffset, setGyroZoffset, emit, xSemaphoreTake, xSemaphoreGive,
    delay, I2C_Write_NBytes, guarded_append, h, guarded, hd, hc]

theorem gyro_zero_cal_guarded (p : Event → Bool) (hd : ∀ ms, p (Event.delay ms) = false)
    (hc : ∀ f, p (Event.cfgRd f) = false) (s : Driver)
    (h : guarded p false s.trace = some false) :
    guarded p false (gyro_zero_cal s).trace = some false := by
  unfold gyro_zero_cal
  simp only []
  apply (offsets_guarded p hd hc _ _ _).2.2
  apply (offsets_guarded p hd hc _ _ _).2.1
  apply (offsets_guarded p hd hc _ _ _).1
  exact calLoop_guarded p hd _ _ _ h

theorem emit_trace (s : Driver) (e : Event) : (emit s e).trace = s.trace ++ [e] := rfl

theorem write_trace (s : Driver) (d r n : Nat) (b : List Nat) :
    (I2C_Write_NBytes s d r n b).trace = s.trace ++ [Event.busWrite d r (b.take n)] := rfl

theorem read_trace (s : Driver) (d r n : Nat) :
    (I2C_Read_NBytes s d r n).1.trace = s.trace ++ [Event.busRead d r n] := rfl

theorem getGres_trace (s : Driver) :
    (getGres s).trace = s.trace ++
      [Event.cfgRd Field.gscale, Event.cfgWr Field.gRes, Event.cfgWr Field.gRadRes] := by
  simp [getGres, emit]

theorem getAres_trace (s : Driver) :
    (getAres s).trace = s.trace ++ [Event.cfgRd Field.ascale, Event.cfgWr Field.aRes] := by
  simp [getAres, emit]

theorem init_trace (s : Driver) (sda scl wire : Nat) :
    (init s sda scl wire).1.trace = s.trace ++
      (if s.nextByte MPU6886_WHOAMI = 0x19 then
        [Event.take, Event.busBegin sda scl 400000,
          Event.busRead MPU6886_ADDRESS MPU6886_WHOAMI 1, Event.delay 1,
          Event.busWrite MPU6886_ADDRESS MPU6886_PWR_MGMT_1 [0x00], Event.delay 10,
          Event.busWrite MPU6886_ADDRESS MPU6886_PWR_MGMT_1 [0x80], Event.delay 10,
          Event.busWrite MPU6886_ADDRESS MPU6886_PWR_MGMT_1 [0x01], Event.delay 10,
          Event.busWrite MPU6886_ADDRESS MPU6886_ACCEL_CONFIG [0x00],
          Event.cfgWr Field.ascale, Event.delay 1,
          Event.busWrite MPU6886_ADDRESS MPU6886_GYRO_CONFIG [0x08],
          Event.cfgWr Field.gscale, Event.delay 1,
          Event.busWrite MPU6886_ADDRESS MPU6886_CONFIG [0x41],
          Event.cfgWr Field.gfilter, Event.delay 1,
          Event.busWrite MPU6886_ADDRESS MPU6886_SMPLRT_DIV [0x00],
          Event.cfgWr Field.divider, Event.delay 1,
          Event.busWrite MPU6886_ADDRESS MPU6886_INT_ENABLE [0x00], Event.delay 1,
          Event.busWrite MPU6886_ADDRESS MPU6886_ACCEL_CONFIG2 [0x00],
          Event.cfgWr Field.afilter, Event.delay 1,
          Event.busWrite MPU6886_ADDRESS MPU6886_USER_CTRL [0x00], Event.delay 1,
          Event.busWrite MPU6886_ADDRESS MPU6886_FIFO_EN [0x00], Event.delay 1,
          Event.busWrite MPU6886_ADDRESS MPU6886_INT_PIN_CFG [0x00], Event.delay 1,
          Event.busWrite MPU6886_ADDRESS MPU6886_INT_ENABLE [0x00],
          Event.give, Event.delay 100,
          Event.cfgRd Field.gscale, Event.cfgWr Field.gRes, Event.cfgWr Field.gRadRes,
          Event.cfgRd Field.ascale, Event.cfgWr Field.aRes]
      else
        [Event.take, Event.busBegin sda scl 400000,
          Event.busRead MPU6886_ADDRESS MPU6886_WHOAMI 1, Event.give]) := by
  by_cases hid : s.nextByte MPU6886_WHOAMI = 0x19
  · have h2 : (init s sda scl wire).2 = true := by rw [init_result]; simpa using hid
    rw [if_pos hid]
    unfold init at h2 ⊢
    simp only [] at h2 ⊢
    split_ifs at h2 ⊢
    all_goals try simp at h2
    all_goals simp [getAres_trace, getGres_trace, delay, xSemaphoreGive, xSemaphoreTake,
      emit_trace, write_trace, read_trace]
  · have h2 : (init s sda scl wire).2 = false := by rw [init_result]; simpa using hid
    rw [if_neg hid]
    exact (init_failure s sda scl wire h2).1

theorem init_guarded (p : Event → Bool) (hd : ∀ ms, p (Event.delay ms) = false)
    (hb : ∀ a b c, p (Event.busBegin a b c) = false)
    (hr : ∀ f, p (Event.cfgRd f) = false)
    (h1 : p (Event.cfgWr Field.aRes) = false) (h2 : p (Event.cfgWr Field.gRes) = false)
    (h3 : p (Event.cfgWr Field.gRadRes) = false)
    (s : Driver) (sda scl wire : Nat) (h : guarded p false s.trace = some false) :
    guarded p false (init s sda scl wire).1.trace = some false := by
  rw [init_trace, guarded_append, h]
  split <;> simp [guarded, hd, hb, hr, h1, h2, h3]

theorem setters_guarded (p : Event → Bool) (hd : ∀ ms, p (Event.delay ms) = false)
    (s : Driver) (x : Nat) (h : guarded p false s.trace = some false) :
    guarded p false (setGyroFsr s x).trace = some false ∧
    guarded p false (setAccelFsr s x).trace = some false ∧
    guarded p false (setGyroFilter s x).trace = some false ∧
    guarded p false (setAccelFilter s x).trace = some false ∧
    guarded p false (setSampleDivider s x).trace = some false := by
  refine ⟨?_, ?_, ?_, ?_, ?_⟩
  · unfold setGyroFsr
    split
    · exact h
    · by_cases h8 : s.now_gfilter = GNFIL_3281
      · simp [getGres_trace, emit_trace, write_trace, xSemaphoreTake, xSemaphoreGive, delay,
          emit, I2C_Write_NBytes, h8, guarded_append, h, guarded, hd]
      · by_cases h9 : s.now_gfilter = GNFIL_8173
        · simp [getGres_trace, emit_trace, write_trace, xSemaphoreTake, xSemaphoreGive, delay,
            emit, I2C_Write_NBytes, h9, guarded_append, h, guarded, hd]
        · simp [getGres_trace, emit_trace, write_trace, xSemaphoreTake, xSemaphoreGive, delay,
            emit, I2C_Write_NBytes, h8, h9, guarded_append, h, guarded, hd]
  · unfold setAccelFsr
    split
    · exact h
    · simp [getAres_trace, emit_trace, write_trace, xSemaphoreTake, xSemaphoreGive, delay,
        guarded_append, h, guarded, hd]
  · simp [setGyroFilter, emit_trace, write_trace, xSemaphoreTake, xSemaphoreGive, delay,
      guarded_append, h, guarded, hd]
  · simp [setAccelFilter, emit_trace, write_trace, xSemaphoreTake, xSemaphoreGive, delay,
      guarded_append, h, guarded, hd]
  · simp [setSampleDivider, emit_trace, write_trace, xSemaphoreTake, xSemaphoreGive, delay,
      guarded_append, h, guarded, hd]

theorem reads_guarded (p : Event → Bool) (hr : ∀ f, p (Event.cfgRd f) = false)
    (s : Driver) (r : Bool) (n : Nat) (h : guarded p false s.trace = some false) :
    guarded p false (getAccelAdc s).1.trace = some false ∧
    guarded p false (getGyroAdc s).1.trace = some false ∧
    guarded p false (getTempAdc s).1.trace = some false ∧
    guarded p false (getAllAdc s).1.trace = some false ∧
    guarded p false (getAllAdc_u8 s).1.trace = some false ∧
    guarded p false (getAccelData s).1.trace = some false ∧
    guarded p false (getGyroData s r).1.trace = some false ∧
    guarded p false (getTempData s).1.trace = some false ∧
    guarded p false (getFifoSize s).1.trace = some false ∧
    guarded p false (getFifo s n).1.trace = some false := by
  refine ⟨?_, ?_, ?_, ?_, ?_, ?_, ?_, ?_, ?_, ?_⟩
  · simp [getAccelAdc, I2C_Read_NBytes, emit, xSemaphoreTake, xSemaphoreGive,
      guarded_append, h, guarded]
  · simp [getGyroAdc, I2C_Read_NBytes, emit, xSemaphoreTake, xSemaphoreGive,
      guarded_append, h, guarded]
  · simp [getTempAdc, I2C_Read_NBytes, emit, xSemaphoreTake, xSemaphoreGive,
      guarded_append, h, guarded]
  · simp [getAllAdc, I2C_Read_NBytes, emit, xSemaphoreTake, xSemaphoreGive,
      guarded_append, h, guarded]
  · simp [getAllAdc_u8, I2C_Read_NBytes, emit, xSemaphoreTake, xSemaphoreGive,
      guarded_append, h, guarded]
  · simp [getAccelData, getAccelAdc, I2C_Read_NBytes, emit, xSemaphoreTake, xSemaphoreGive,
      guarded_append, h, guarded, hr]
  · cases r <;>
      simp [getGyroData, getGyroAdc, I2C_Read_NBytes, emit, xSemaphoreTake, xSemaphoreGive,
        guarded_append, h, guarded, hr]
  · simp [getTempData, getTempAdc, I2C_Read_NBytes, emit, xSemaphoreTake, xSemaphoreGive,
      guarded_append, h, guarded]
  · simp [getFifoSize, I2C_Read_NBytes, emit, xSemaphoreTake, xSemaphoreGive,
      guarded_append, h, guarded]
  · simp [getFifo, I2C_Read_NBytes, emit, xSemaphoreTake, xSemaphoreGive,
      guarded_append, h, guarded]

theorem fifo_guarded (p : Event → Bool) (hd : ∀ ms, p (Event.delay ms) = false)
    (s : Driver) (a g : Bool) (h : guarded p false s.trace = some false) :
    guarded p false (startFifo s a g).trace = some false ∧
    guarded p false (stopFifo s).trace = some false := by
  constructor
  · simp [startFifo, emit_trace, write_trace, xSemaphoreTake, xSemaphoreGive, delay,
      guarded_append, h, guarded, hd]
  · simp [stopFifo, emit_trace, write_trace, xSemaphoreTake, xSemaphoreGive,
      guarded_append, h, guarded]

theorem step_guarded (p : Event → Bool) (hd : ∀ ms, p (Event.delay ms) = false)
    (hr : ∀ f, p (Event.cfgRd f) = false) (s : Driver) (op : Op)
    (hop : op.isInit = false) (h : guarded p false s.trace = some false) :
    guarded p false (step s op).trace = some false := by
  have S := fun x => setters_guarded p hd s x h
  have R := fun r n => reads_guarded p hr s r n h
  have F := fun a g => fifo_guarded p hd s a g h
  have O := fun o => offsets_guarded p hd hr s o h
  cases op with
  | init a b c => exact absurd hop (by simp [Op.isInit])
  | getAccelAdc => exact (R true 0).1
  | getGyroAdc => exact (R true 0).2.1
  | getTempAdc => exact (R true 0).2.2.1
  | getAllAdc => exact (R true 0).2.2.2.1
  | getAllAdc_u8 => exact (R true 0).2.2.2.2.1
  | getAccelData => exact (R true 0).2.2.2.2.2.1
  | getGyroData r => exact (R r 0).2.2.2.2.2.2.1
  | getTempData => exact (R true 0).2.2.2.2.2.2.2.1
  | getFifoSize => exact (R true 0).2.2.2.2.2.2.2.2.1
  | getFifo n => exact (R true n).2.2.2.2.2.2.2.2.2
  | setGyroFsr x => exact (S x).1
  | setAccelFsr x => exact (S x).2.1
  | setGyroFilter x => exact (S x).2.2.1
  | setAccelFilter x => exact (S x).2.2.2.1
  | setSampleDivider x => exact (S x).2.2.2.2
  | startFifo a g => exact (F a g).1
  | stopFifo => exact (F true true).2
  | setGyroXoffset o => exact (O o).1
  | setGyroYoffset o => exact (O o).2.1
  | setGyroZoffset o => exact (O o).2.2
  | gyro_zero_cal => exact gyro_zero_cal_guarded p hd hr s h

/-- The raw reads and `getTempData` read no cached member. -/
theorem rawreads_guarded (p : Event → Bool) (s : Driver) (n : Nat)
    (h : guarded p false s.trace = some false) :
    guarded p false (getAccelAdc s).1.trace = some false ∧
    guarded p false (getGyroAdc s).1.trace = some false ∧
    guarded p false (getTempAdc s).1.trace = some false ∧
    guarded p false (getAllAdc s).1.trace = some false ∧
    guarded p false (getAllAdc_u8 s).1.trace = some false ∧
    guarded p false (getTempData s).1.trace = some false ∧
    guarded p false (getFifoSize s).1.trace = some false ∧
    guarded p false (getFifo s n).1.trace = some false := by
  refine ⟨?_, ?_, ?_, ?_, ?_, ?_, ?_, ?_⟩
  · simp [getAccelAdc, I2C_Read_NBytes, emit, xSemaphoreTake, xSemaphoreGive,
      guarded_append, h, guarded]
  · simp [getGyroAdc, I2C_Read_NBytes, emit, xSemaphoreTake, xSemaphoreGive,
      guarded_append, h, guarded]
  · simp [getTempAdc, I2C_Read_NBytes, emit, xSemaphoreTake, xSemaphoreGive,
      guarded_append, h, guarded]
  · simp [getAllAdc, I2C_Read_NBytes, emit, xSemaphoreTake, xSemaphoreGive,
      guarded_append, h, guarded]
  · simp [getAllAdc_u8, I2C_Read_NBytes, emit, xSemaphoreTake, xSemaphoreGive,
      guarded_append, h, guarded]
  · simp [getTempData, getTempAdc, I2C_Read_NBytes, emit, xSemaphoreTake, xSemaphoreGive,
      guarded_append, h, guarded]
  · simp [getFifoSize, I2C_Read_NBytes, emit, xSemaphoreTake, xSemaphoreGive,
      guarded_append, h, guarded]
  · simp [getFifo, I2C_Read_NBytes, emit, xSemaphoreTake, xSemaphoreGive,
      guarded_append, h, guarded]

/-- The calls outside `init` and outside `Op.readsUnlocked` keep every event
selected by `p` under the mutex, reads of the cache included. -/
theorem step_guarded_full (p : Event → Bool) (hd : ∀ ms, p (Event.delay ms) = false)
    (s : Driver) (op : Op) (hop : op.isInit = false) (hun : op.readsUnlocked = false)
    (h : guarded p false s.trace = some false) :
    guarded p false (step s op).trace = some false := by
  have S := fun x => setters_guarded p hd s x h
  have R := fun n => rawreads_guarded p s n h
  have F := fun a g => fifo_guarded p hd s a g h
  cases op with
  | init a b c => exact absurd hop (by simp [Op.isInit])
  | getAccelData => exact absurd hun (by simp [Op.readsUnlocked])
  | getGyroData r => exact absurd hun (by simp [Op.readsUnlocked])
  | setGyroXoffset o => exact absurd hun (by simp [Op.readsUnlocked])
  | setGyroYoffset o => exact absurd hun (by simp [Op.readsUnlocked])
  | setGyroZoffset o => exact absurd hun (by simp [Op.readsUnlocked])
  | gyro_zero_cal => exact absurd hun (by simp [Op.readsUnlocked])
  | getAccelAdc => exact (R 0).1
  | getGyroAdc => exact (R 0).2.1
  | getTempAdc => exact (R 0).2.2.1
  | getAllAdc => exact (R 0).2.2.2.1
  | getAllAdc_u8 => exact (R 0).2.2.2.2.1
  | getTempData => exact (R 0).2.2.2.2.2.1
  | getFifoSize => exact (R 0).2.2.2.2.2.2.1
  | getFifo n => exact (R n).2.2.2.2.2.2.2
  | setGyroFsr x => exact (S x).1
  | setAccelFsr x => exact (S x).2.1
  | setGyroFilter x => exact (S x).2.2.1
  | setAccelFilter x => exact (S x).2.2.2.1
  | setSampleDivider x => exact (S x).2.2.2.2
  | startFifo a g => exact (F a g).1
  | stopFifo => exact (F true true).2

theorem unguarded_reads (s : Driver) (o : Int) (r : Bool) :
    guarded Event.isCfg false (opTrace s (Op.setGyroXoffset o)) = none ∧
    guarded Event.isCfg false (opTrace s (Op.setGyroYoffset o)) = none ∧
    guarded Event.isCfg false (opTrace s (Op.setGyroZoffset o)) = none ∧
    guarded Event.isCfg false (opTrace s Op.getAccelData) = none ∧
    guarded Event.isCfg false (opTrace s (Op.getGyroData r)) = none := by
  refine ⟨?_, ?_, ?_, ?_, ?_⟩
  · simp [opTrace, step, setGyroXoffset, emit_trace, write_trace, xSemaphoreTake,
      xSemaphoreGive, delay, guarded, Event.isCfg]
  · simp [opTrace, step, setGyroYoffset, emit_trace, write_trace, xSemaphoreTake,
      xSemaphoreGive, delay, guarded, Event.isCfg]
  · simp [opTrace, step, setGyroZoffset, emit_trace, write_trace, xSemaphoreTake,
      xSemaphoreGive, delay, guarded, Event.isCfg]
  · simp [opTrace, step, getAccelData, getAccelAdc, I2C_Read_NBytes, emit, xSemaphoreTake,
      xSemaphoreGive, guarded, Event.isCfg]
  · cases r <;>
      simp [opTrace, step, getGyroData, getGyroAdc, I2C_Read_NBytes, emit, xSemaphoreTake,
        xSemaphoreGive, guarded, Event.isCfg]

theorem offset_unguarded (s : Driver) (offset : Int)
    (h : guarded Event.isCfg false s.trace = some false) :
    guarded Event.isCfg false (setGyroXoffset s offset).trace = none := by
  simp [setGyroXoffset, emit_trace, write_trace, xSemaphoreTake, xSemaphoreGive, delay,
    guarded_append, h, guarded, Event.isCfg]

theorem offset_none (s : Driver) (offset : Int)
    (h : guarded Event.isCfg false s.trace = none) :
    guarded Event.isCfg false (setGyroYoffset s offset).trace = none ∧
    guarded Event.isCfg false (setGyroZoffset s offset).trace = none := by
  simp [setGyroYoffset, setGyroZoffset, emit_trace, write_trace, xSemaphoreTake,
    xSemaphoreGive, delay, guarded_append, h]

theorem gyro_zero_cal_unguarded (s : Driver) :
    guarded Event.isCfg false (opTrace s Op.gyro_zero_cal) = none := by
  show guarded Event.isCfg false (gyro_zero_cal _).trace = none
  unfold gyro_zero_cal
  simp only []
  apply (offset_none _ _ _).2
  apply (offset_none _ _ _).1
  apply offset_unguarded
  exact calLoop_guarded _ (fun _ => rfl) _ _ _ rfl

/-- Claim C14, amended: in the events of every public call, takes and gives
alternate starting with a take, the mutex is released at the end, and every
register read, every register write and every write of a cached range, filter
or divider happens while the mutex is held; in every call other than `init`
every write of a cached member, the resolutions included, happens while it is
held; in every call other than `init`, the scaled reads of acceleration and
angular rate, the three offset setters and `gyro_zero_cal`, every read of a
cached member happens while it is held as well; the offset setters and
`gyro_zero_cal` read the cached range, and the two scaled reads read the
cached resolution, while it is released; a range setter given an underlying
value in 4 .. 2^31 - 1 emits no event. -/
theorem C14_mutex_discipline (s : Driver) (op : Op) (bad : Nat) (o : Int) (r : Bool)
    (hbad : 3 < bad) (hbad32 : bad < 2147483648) :
    guarded (fun e => e.isRegister || e.isSettingWr) false (opTrace s op) = some false ∧
    (op.isInit = true ∨
      guarded (fun e => e.isRegister || e.isCfgWr) false (opTrace s op) = some false) ∧
    (op.isInit = true ∨ op.readsUnlocked = true ∨
      guarded (fun e => e.isRegister || e.isCfg) false (opTrace s op) = some false) ∧
    (guarded Event.isCfg false (opTrace s (Op.setGyroXoffset o)) = none ∧
      guarded Event.isCfg false (opTrace s (Op.setGyroYoffset o)) = none ∧
      guarded Event.isCfg false (opTrace s (Op.setGyroZoffset o)) = none ∧
      guarded Event.isCfg false (opTrace s Op.getAccelData) = none ∧
      guarded Event.isCfg false (opTrace s (Op.getGyroData r)) = none ∧
      guarded Event.isCfg false (opTrace s Op.gyro_zero_cal) = none) ∧
    opTrace s (Op.setGyroFsr bad) = [] ∧ opTrace s (Op.setAccelFsr bad) = [] := by
  obtain ⟨u1, u2, u3, u4, u5⟩ := unguarded_reads s o r
  refine ⟨?_, ?_, ?_, ⟨u1, u2, u3, u4, u5, gyro_zero_cal_unguarded s⟩, ?_, ?_⟩
  · cases hop : op.isInit
    · exact step_guarded _ (fun _ => rfl) (fun _ => rfl) _ op hop rfl
    · cases op with
      | init a b c =>
        exact init_guarded _ (fun _ => rfl) (fun _ _ _ => rfl) (fun _ => rfl) rfl rfl rfl
          _ a b c rfl
      | _ => exact absurd hop (by simp [Op.isInit])
  · cases hop : op.isInit
    · exact Or.inr (step_guarded _ (fun _ => rfl) (fun _ => rfl) _ op hop rfl)
    · exact Or.inl rfl
  · cases hop : op.isInit
    · cases hun : op.readsUnlocked
      · exact Or.inr (Or.inr (step_guarded_full _ (fun _ => rfl) _ op hop hun rfl))
      · exact Or.inr (Or.inl rfl)
    · exact Or.inl rfl
  · have h : enumGt bad GFS_2000DPS := range_guard_pos bad hbad hbad32
    show (setGyroFsr _ _).trace = []
    rw [setGyroFsr, if_pos h]
  · have h : enumGt bad AFS_16G := range_guard_pos bad hbad hbad32
    show (setAccelFsr _ _).trace = []
    rw [setAccelFsr, if_pos h]

/-- Claim C14 on the initialised driver, for `setGyroFsr GFS_1000DPS` and the
rejected argument 4. -/
theorem C14_mutex_discipline_witness :
    (3 < 4 ∧ 4 < 2147483648) ∧
    guarded (fun e => e.isRegister || e.isCfg) false
      (opTrace initialised (Op.setGyroFsr GFS_1000DPS)) = some false ∧
    opTrace initialised (Op.setGyroFsr 4) = [] :=
  ⟨by decide, by decide,
    (C14_mutex_discipline initialised (Op.setGyroFsr GFS_1000DPS) 4 0 true
      (by decide) (by decide)).2.2.2.2.1⟩

/-- Claim C14 as stated fails: `setGyroXoffset` reads the cached gyroscope
range before it takes the mutex, and `getAccelData` reads the cached
resolution after the raw read has given it back. -/
theorem C14_mutex_discipline_counterexample :
    guarded (fun e => e.isRegister || e.isCfg) false
      (opTrace initialised (Op.setGyroXoffset 0)) = none ∧
    opTrace initialised (Op.setGyroXoffset 0) =
      [Event.cfgRd Field.gscale, Event.take,
        Event.busWrite MPU6886_ADDRESS MPU6886_XG_OFFS_USRH [0, 0], Event.give,
        Event.delay 1] ∧
    guarded (fun e => e.isRegister || e.isCfg) false (opTrace initialised Op.getAccelData)
      = none ∧
    opTrace initialised Op.getAccelData =
      [Event.take, Event.busRead MPU6886_ADDRESS MPU6886_ACCEL_XOUT_H 6, Event.give,
        Event.cfgRd Field.aRes, Event.cfgRd Field.aRes, Event.cfgRd Field.aRes] := by
  decide

/-! ## Temperature -/

theorem getTempData_val (s : Driver) :
    (getTempData s).2 = ((getTempAdc s).2 : ℚ) / 326.8 + 25.0 := by
  simp [getTempData, getTempAdc, I2C_Read_NBytes, xSemaphoreTake, xSemaphoreGive, emit]

/-- Claim C15: `getTempData` returns the raw temperature divided by 326.8
plus 25, over exact rationals; it is strictly increasing in the raw value; a
raw value of 0 gives 25 and a raw value of 3268 gives 35 within 0.01. -/
theorem C15_temperature (s t : Driver) (h : (getTempAdc s).2 < (getTempAdc t).2) :
    (getTempData s).2 = ((getTempAdc s).2 : ℚ) / 326.8 + 25.0 ∧
    (getTempData s).2 < (getTempData t).2 ∧
    ((getTempAdc (blank fun _ => 0)).2 = 0 ∧ (getTempData (blank fun _ => 0)).2 = 25) ∧
    ((getTempAdc (blank warmDevice)).2 = 3268 ∧
      |(getTempData (blank warmDevice)).2 - 35| ≤ 0.01) := by
  have e0 : (getTempAdc (blank fun _ => 0)).2 = 0 := by decide
  have e1 : (getTempAdc (blank warmDevice)).2 = 3268 := by decide
  refine ⟨getTempData_val s, ?_, ⟨e0, ?_⟩, e1, ?_⟩
  · rw [getTempData_val, getTempData_val]
    have : ((getTempAdc s).2 : ℚ) < ((getTempAdc t).2 : ℚ) := by exact_mod_cast h
    have hp : (0 : ℚ) < 326.8 := by norm_num
    have := div_lt_div_of_pos_right this hp
    linarith
  · rw [getTempData_val, e0]
    norm_num
  · rw [getTempData_val, e1]
    norm_num

/-- Claim C15 on a device reading 0 and a device reading 3268. -/
theorem C15_temperature_witness :
    (getTempAdc (blank fun _ => 0)).2 < (getTempAdc (blank warmDevice)).2 ∧
    (getTempData (blank fun _ => 0)).2 < (getTempData (blank warmDevice)).2 :=
  ⟨by decide, (C15_temperature (blank fun _ => 0) (blank warmDevice) (by decide)).2.1⟩

/-! ## FIFO -/

/-- Claim C16: from any state and for both flags, `startFifo` issues exactly
the writes USER_CTRL = 0x04, USER_CTRL = 0x40 and FIFO_EN = (0x08 if
accel_enable) | (0x10 if gyro_enable), in this order; `stopFifo` issues the
single write FIFO_EN = 0x00, so that after `startFifo` then `stopFifo` the byte
last written to FIFO_EN is 0; neither changes the cached configuration. -/
theorem C16_fifo_writes (s : Driver) (accel_enable gyro_enable : Bool) :
    busWrites (startFifo s accel_enable gyro_enable).trace = busWrites s.trace ++
      [(MPU6886_USER_CTRL, [0x04]), (MPU6886_USER_CTRL, [0x40]),
       (MPU6886_FIFO_EN,
         [(if accel_enable then 0x08 else 0) ||| (if gyro_enable then 0x10 else 0)])] ∧
    busWrites (stopFifo s).trace = busWrites s.trace ++ [(MPU6886_FIFO_EN, [0x00])] ∧
    (stopFifo (startFifo s accel_enable gyro_enable)).written MPU6886_FIFO_EN = some 0x00 ∧
    (startFifo s accel_enable gyro_enable).cache = s.cache ∧
    (stopFifo s).cache = s.cache := by
  cases accel_enable <;> cases gyro_enable <;>
    simp [startFifo, stopFifo, emit, xSemaphoreTake, xSemaphoreGive, delay, I2C_Write_NBytes,
      busWrites_append, busWrites, storeBytes, Driver.cache]

/-! ## Gyroscope filter -/

/-- Claim C17, evaluated where it fails: for GNFIL_3281 and GNFIL_8173
`setGyroFilter` takes the low-pass branch: it writes CONFIG = 0x48,
respectively 0x49, and GYRO_CONFIG = `now_gscale << 3` with the filter-choice
bits 00; on the initialised driver GYRO_CONFIG is left at 0x08, where the
documented encodings are 0x0A and 0x09. -/
theorem C17_setGyroFilter_GNFIL_branch_unreachable :
    (∀ s : Driver, busWrites (setGyroFilter s GNFIL_3281).trace = busWrites s.trace ++
      [(MPU6886_CONFIG, [0x48]), (MPU6886_GYRO_CONFIG, [(s.now_gscale <<< 3) % 256])]) ∧
    (∀ s : Driver, busWrites (setGyroFilter s GNFIL_8173).trace = busWrites s.trace ++
      [(MPU6886_CONFIG, [0x49]), (MPU6886_GYRO_CONFIG, [(s.now_gscale <<< 3) % 256])]) ∧
    initialised.now_gscale = GFS_500DPS ∧
    (setGyroFilter initialised GNFIL_3281).written MPU6886_GYRO_CONFIG = some 0x08 ∧
    (GFS_500DPS <<< 3) ||| 0x02 = 0x0A ∧
    (setGyroFilter initialised GNFIL_8173).written MPU6886_GYRO_CONFIG = some 0x08 ∧
    (GFS_500DPS <<< 3) ||| 0x01 = 0x09 := by
  refine ⟨fun s => ?_, fun s => ?_, by decide, by decide, by decide, by decide, by decide⟩ <;>
    (simp [setGyroFilter, emit, xSemaphoreTake, xSemaphoreGive, delay, I2C_Write_NBytes,
      busWrites_append, busWrites, toUInt8]; rfl)

end NewMPU6886
